import Mathlib

set_option maxRecDepth 4000

/-! Verification of the UAVTalk telemetry protocol engine
(`flight/UAVTalk/uavtalk.c`): the receive framing state machine
(`UAVTalkProcessInputStream`), the dispatcher (`receiveObject`, `updateAck`),
the transmitter (`sendObject`, `sendSingleObject`, `sendNack`) and the
blocking transaction manager (`objectTransaction`).

The object registry (`UAVObj*` functions) is an external collaborator and is
modelled as an explicit parameter.  The protocol constants and the CRC
routine live in headers (`uavtalk_priv.h`, `pios_crc.c`) that are not part
of the provided sources; those are modelled from the spec, as marked on
their doc comments.  Machine counters that can never overflow on the
considered runs are modelled as `Nat`. -/

/-- Modelled from the spec: the fixed sentinel start-marker byte
(`UAVTALK_SYNC_VAL` from the protocol header, which is not in the provided
sources). -/
def UAVTALK_SYNC_VAL : Nat := 0x3C

/-- Modelled from the spec: mask selecting the version-tag bits of the
kind+version byte (`UAVTALK_TYPE_MASK`, not in the provided sources). -/
def UAVTALK_TYPE_MASK : Nat := 0xF8

/-- Modelled from the spec: the fixed protocol version tag
(`UAVTALK_TYPE_VER`, not in the provided sources). -/
def UAVTALK_TYPE_VER : Nat := 0x20

/-- Modelled from the spec: kind byte for a DATA message
(`UAVTALK_TYPE_OBJ` = version tag | 0x00, not in the provided sources). -/
def UAVTALK_TYPE_OBJ : Nat := 0x20

/-- Modelled from the spec: kind byte for a REQUEST message
(`UAVTALK_TYPE_OBJ_REQ` = version tag | 0x01, not in the provided sources). -/
def UAVTALK_TYPE_OBJ_REQ : Nat := 0x21

/-- Modelled from the spec: kind byte for a DATA-WITH-ACK message
(`UAVTALK_TYPE_OBJ_ACK` = version tag | 0x02, not in the provided sources). -/
def UAVTALK_TYPE_OBJ_ACK : Nat := 0x22

/-- Modelled from the spec: kind byte for an ACK message
(`UAVTALK_TYPE_ACK` = version tag | 0x03, not in the provided sources). -/
def UAVTALK_TYPE_ACK : Nat := 0x23

/-- Modelled from the spec: kind byte for a NACK message
(`UAVTALK_TYPE_NACK` = version tag | 0x04, not in the provided sources). -/
def UAVTALK_TYPE_NACK : Nat := 0x24

/-- Modelled from the spec: minimum header length in bytes
(`UAVTALK_MIN_HEADER_LENGTH`: sync + kind + 2 length + 4 object id). -/
def UAVTALK_MIN_HEADER_LENGTH : Nat := 8

/-- Modelled from the spec: maximum header length in bytes
(`UAVTALK_MAX_HEADER_LENGTH`: minimum header + 2 instance-id bytes). -/
def UAVTALK_MAX_HEADER_LENGTH : Nat := 10

/-- Modelled from the spec: length of the trailing checksum field
(`UAVTALK_CHECKSUM_LENGTH`). -/
def UAVTALK_CHECKSUM_LENGTH : Nat := 1

/-- Modelled from the spec: maximum total packet length, the size of the
allocated receive/transmit buffers (`UAVTALK_MAX_PACKET_LENGTH`). -/
def UAVTALK_MAX_PACKET_LENGTH : Nat := 256

/-- Modelled from the spec: maximum payload length
(`UAVTALK_MAX_PAYLOAD_LENGTH` = max packet - max header - checksum). -/
def UAVTALK_MAX_PAYLOAD_LENGTH : Nat :=
  UAVTALK_MAX_PACKET_LENGTH - UAVTALK_MAX_HEADER_LENGTH - UAVTALK_CHECKSUM_LENGTH

/-- Modelled from the spec: the reserved all-instances (wildcard) instance-id
sentinel (`UAVOBJ_ALL_INSTANCES`, from the object-registry header, not in the
provided sources). -/
def UAVOBJ_ALL_INSTANCES : Nat := 0xFFFF

/-- Modelled from the spec: one round of the rolling 8-bit checksum
(shift step of the CRC-8 polynomial 0x07 used by `PIOS_CRC`). -/
def crc8Shift (x : Nat) : Nat :=
  if 128 ≤ x then ((x * 2) % 256) ^^^ 7 else (x * 2) % 256

/-- Modelled from the spec: `PIOS_CRC_updateByte` from `pios_crc.c` (not in
the provided sources) — the order-dependent rolling checksum accumulator,
folding one byte into the 8-bit accumulator (CRC-8, polynomial 0x07). -/
def PIOS_CRC_updateByte (crc b : Nat) : Nat :=
  let x := (crc ^^^ b) % 256
  crc8Shift (crc8Shift (crc8Shift (crc8Shift
    (crc8Shift (crc8Shift (crc8Shift (crc8Shift x)))))))

/-- Modelled from the spec: `PIOS_CRC_updateCRC` — the rolling checksum of a
byte sequence, one `PIOS_CRC_updateByte` step per byte. -/
def PIOS_CRC_updateCRC (crc : Nat) (l : List Nat) : Nat :=
  l.foldl PIOS_CRC_updateByte crc

/-- Modelled from the spec: per-object metadata of the external Object
Registry (32-bit identifier, single- vs multi-instance flag, serialized byte
length, instance count). -/
structure UAVObjDef where
  objId : Nat
  isSingle : Bool
  numBytes : Nat
  numInstances : Nat
deriving DecidableEq

/-- Modelled from the spec: the external Object Registry interface consumed
by the protocol engine: lookup by identifier plus the `pack`/`unpack`
codecs.  `pack o i` returns the serialized payload bytes of object `o`
instance `i` (or `none` when `UAVObjPack` fails); `unpackOk o i data` is the
success of `UAVObjUnpack`. -/
structure UAVObjRegistry where
  objs : List UAVObjDef
  pack : Nat → Nat → Option (List Nat)
  unpackOk : Nat → Nat → List Nat → Bool

/-- `UAVObjGetByID`: resolve a 32-bit object identifier in the registry
(`none` models the NULL handle). -/
def UAVObjGetByID (reg : UAVObjRegistry) (objId : Nat) : Option UAVObjDef :=
  reg.objs.find? (fun d => d.objId == objId)

/-- `UAVObjGetID` on a (possibly NULL) object handle. -/
def idOf (obj : Option UAVObjDef) : Nat :=
  match obj with
  | some d => d.objId
  | none => 0

/-- The handle value stored in `connection->respObj`: the NULL handle is 0;
a valid handle is identified with the object's id. -/
def handleOf (obj : Option UAVObjDef) : Nat := idOf obj

/-- `UAVObjIsSingleInstance` on a handle (never called on NULL on the
reachable paths; the NULL default is irrelevant). -/
def isSingleOf (obj : Option UAVObjDef) : Bool :=
  match obj with
  | some d => d.isSingle
  | none => true

/-- `UAVObjGetNumBytes` on a handle. -/
def numBytesOf (obj : Option UAVObjDef) : Nat :=
  match obj with
  | some d => d.numBytes
  | none => 0

/-- `UAVObjGetNumInstances` on a handle. -/
def numInstancesOf (obj : Option UAVObjDef) : Nat :=
  match obj with
  | some d => d.numInstances
  | none => 0

/-- The traffic counters of a connection (`UAVTalkStats`). -/
structure UAVTalkStats where
  txBytes : Nat
  txObjectBytes : Nat
  txObjects : Nat
  rxBytes : Nat
  rxObjectBytes : Nat
  rxObjects : Nat
  rxErrors : Nat
deriving DecidableEq

/-- The states of the receive state machine (`UAVTALK_STATE_*`). -/
inductive UAVTalkRxState where
  | SYNC
  | TYPE
  | SIZE
  | OBJID
  | INSTID
  | DATA
  | CS
deriving DecidableEq

/-- The receive-side cursor (`UAVTalkInputProcessor`). -/
structure UAVTalkInputProcessor where
  state : UAVTalkRxState
  type : Nat
  packet_size : Nat
  objId : Nat
  obj : Option UAVObjDef
  instId : Nat
  length : Nat
  rxPacketLength : Nat
  rxCount : Nat
  cs : Nat
deriving DecidableEq

/-- Ghost record of one Dispatcher invocation (the call of `receiveObject`
from the `UAVTALK_STATE_CS` arm): message kind, object id, instance id and
the payload handed over. -/
structure UAVTalkDispatch where
  type : Nat
  objId : Nat
  instId : Nat
  payload : List Nat
deriving DecidableEq

/-- Ghost record of one `UAVObjUnpack` call issued by the dispatcher. -/
structure UAVTalkUnpackCall where
  objHandle : Nat
  instId : Nat
  data : List Nat
deriving DecidableEq

/-- The per-link protocol state (`UAVTalkConnectionData`).  `outputs` is the
chronological list of the byte buffers handed to the output stream;
`dispatches` and `unpacks` are ghost observation logs; `respSema` is the
binary completion semaphore; `transLock` the transaction lock. -/
structure UAVTalkConnectionData where
  iproc : UAVTalkInputProcessor
  rxBuffer : List Nat
  txSize : Nat
  stats : UAVTalkStats
  respObj : Nat
  respInstId : Nat
  respSema : Bool
  transLock : Bool
  outputs : List (List Nat)
  dispatches : List UAVTalkDispatch
  unpacks : List UAVTalkUnpackCall
deriving DecidableEq

/-- Two-byte little-endian encoding (the order the transmitter stores a
16-bit field into the buffer). -/
def le2 (n : Nat) : List Nat := [n % 256, n / 256 % 256]

/-- Four-byte little-endian encoding of a 32-bit field. -/
def le4 (n : Nat) : List Nat :=
  [n % 256, n / 256 % 256, n / 65536 % 256, n / 16777216 % 256]

/-- First `n` bytes of the transmit buffer region written by `UAVObjPack`:
the pack result truncated or zero-padded to the registered length (the C
code always reads exactly the registered length from the buffer). -/
def padTake (n : Nat) (l : List Nat) : List Nat :=
  l.take n ++ List.replicate (n - l.length) 0

/-- Overwrite byte `i` of a buffer (`buf[i] = b`). -/
def bufSet (buf : List Nat) (i b : Nat) : List Nat :=
  buf.take i ++ b :: buf.drop (i + 1)

/-- The chunking loop of `sendSingleObject`: split a buffer into
consecutive chunks of at most `n` bytes (fuel-based recursion; the fuel
`buf.length` suffices for every `n ≥ 1`). -/
def chunkGo : Nat → Nat → List Nat → List (List Nat)
  | 0, _, _ => []
  | _ + 1, _, [] => []
  | fuel + 1, n, b :: rest => (b :: rest).take n :: chunkGo fuel n ((b :: rest).drop n)

/-- Chunked writes of one frame: the sequence of buffers handed to the
output stream by the transmit loop of `sendSingleObject`. -/
def chunkWrites (n : Nat) (l : List Nat) : List (List Nat) :=
  chunkGo l.length n l

/-- The data length `sendSingleObject` determines for a message kind: zero
for the REQUEST and ACK control kinds, else the object's registered
serialized size.  (NACK is not special-cased here, mirroring the source.) -/
def sendLength (obj : Option UAVObjDef) (ty : Nat) : Nat :=
  if ty = UAVTALK_TYPE_OBJ_REQ ∨ ty = UAVTALK_TYPE_ACK then 0 else numBytesOf obj

/-- The data offset `sendSingleObject` uses: 8 for single-instance objects,
10 (two extra instance-id bytes) for multi-instance objects. -/
def sendDataOffset (obj : Option UAVObjDef) : Nat :=
  if isSingleOf obj then 8 else 10

/-- The serialized frame built by `sendSingleObject` into the transmit
buffer: sync byte, kind byte, little-endian total length, little-endian
object id, instance id for multi-instance objects, payload from
`UAVObjPack`, trailing checksum.  `none` when the length check
(`length >= UAVTALK_MAX_PAYLOAD_LENGTH`) or `UAVObjPack` fails. -/
def txFrame (reg : UAVObjRegistry) (obj : Option UAVObjDef) (instId ty : Nat) :
    Option (List Nat) :=
  let objId := idOf obj
  let length := sendLength obj ty
  if UAVTALK_MAX_PAYLOAD_LENGTH ≤ length then none
  else
    match (if 0 < length then reg.pack objId instId else some []) with
    | none => none
    | some pl =>
      let body := [UAVTALK_SYNC_VAL, ty] ++ le2 (sendDataOffset obj + length) ++ le4 objId
        ++ (if isSingleOf obj then [] else le2 instId) ++ padTake length pl
      some (body ++ [PIOS_CRC_updateCRC 0 body])

/-- `sendSingleObject`: serialize one object instance as one frame and hand
it to the output stream in chunks of at most `txSize` bytes, updating the
transmit counters; `-1` (nothing written) when the length check or the
registry pack call fails. -/
def sendSingleObject (reg : UAVObjRegistry) (conn : UAVTalkConnectionData)
    (obj : Option UAVObjDef) (instId ty : Nat) : Int × UAVTalkConnectionData :=
  match txFrame reg obj instId ty with
  | none => (-1, conn)
  | some wire =>
    (0, { conn with
          outputs := conn.outputs ++ chunkWrites conn.txSize wire,
          stats := { conn.stats with
            txObjects := conn.stats.txObjects + 1,
            txBytes := conn.stats.txBytes +
              (sendDataOffset obj + sendLength obj ty + UAVTALK_CHECKSUM_LENGTH),
            txObjectBytes := conn.stats.txObjectBytes + sendLength obj ty } })

/-- The 9-byte NACK frame built by `sendNack` (data offset 8, no payload,
trailing checksum). -/
def nackFrame (objId : Nat) : List Nat :=
  let body := [UAVTALK_SYNC_VAL, UAVTALK_TYPE_NACK] ++ le2 8 ++ le4 objId
  body ++ [PIOS_CRC_updateCRC 0 body]

/-- `sendNack`: transmit a NACK carrying the raw requested object id.  The
frame is handed to the output stream as one single write (the chunking loop
of `sendSingleObject` is not used here). -/
def sendNack (conn : UAVTalkConnectionData) (objId : Nat) :
    Int × UAVTalkConnectionData :=
  (0, { conn with
        outputs := conn.outputs ++ [nackFrame objId],
        stats := { conn.stats with
          txBytes := conn.stats.txBytes + (8 + UAVTALK_CHECKSUM_LENGTH) } })

/-- `updateAck`: complete the pending transaction when the received
object/instance matches the recorded target (exactly, or the recorded
target instance is the wildcard): give the response semaphore and clear the
pending object. -/
def updateAck (conn : UAVTalkConnectionData) (objHandle instId : Nat) :
    UAVTalkConnectionData :=
  if conn.respObj = objHandle ∧
      (conn.respInstId = instId ∨ conn.respInstId = UAVOBJ_ALL_INSTANCES) then
    { conn with respSema := true, respObj := 0 }
  else conn

/-- `sendObject`: transmit an object, expanding a wildcard instance id to
every instance for DATA / DATA-WITH-ACK kinds (forcing instance 0 for
single-instance objects), and rejecting a wildcard for the ACK kind. -/
def sendObject (reg : UAVObjRegistry) (conn : UAVTalkConnectionData)
    (obj : Option UAVObjDef) (instId ty : Nat) : Int × UAVTalkConnectionData :=
  let instId2 := if instId = UAVOBJ_ALL_INSTANCES ∧ isSingleOf obj then 0 else instId
  if ty = UAVTALK_TYPE_OBJ ∨ ty = UAVTALK_TYPE_OBJ_ACK then
    if instId2 = UAVOBJ_ALL_INSTANCES then
      (0, (List.range (numInstancesOf obj)).foldl
        (fun c n => (sendSingleObject reg c obj n ty).2) conn)
    else
      sendSingleObject reg conn obj instId2 ty
  else if ty = UAVTALK_TYPE_OBJ_REQ then
    sendSingleObject reg conn obj instId2 UAVTALK_TYPE_OBJ_REQ
  else if ty = UAVTALK_TYPE_ACK then
    if instId2 ≠ UAVOBJ_ALL_INSTANCES then
      sendSingleObject reg conn obj instId2 UAVTALK_TYPE_ACK
    else (-1, conn)
  else (-1, conn)

/-- `receiveObject`: the Dispatcher.  Routes one validated frame: DATA
unpacks (result ignored) then checks the pending transaction; DATA-WITH-ACK
unpacks and transmits an ACK only on unpack success; REQUEST answers with
the object data, or a NACK when the id is unknown; ACK checks the pending
transaction; NACK does nothing.  The wildcard instance id is rejected for
DATA / DATA-WITH-ACK / ACK.  (The C signature also carries the buffer
length; the body never reads it, the data list is what `UAVObjUnpack`
consumes.) -/
def receiveObject (reg : UAVObjRegistry) (conn : UAVTalkConnectionData)
    (type objId instId : Nat) (data : List Nat) : Int × UAVTalkConnectionData :=
  let obj := UAVObjGetByID reg objId
  if type = UAVTALK_TYPE_OBJ then
    if instId ≠ UAVOBJ_ALL_INSTANCES then
      let c1 := { conn with unpacks := conn.unpacks ++ [⟨handleOf obj, instId, data⟩] }
      (0, updateAck c1 (handleOf obj) instId)
    else (-1, conn)
  else if type = UAVTALK_TYPE_OBJ_ACK then
    if instId ≠ UAVOBJ_ALL_INSTANCES then
      let c1 := { conn with unpacks := conn.unpacks ++ [⟨handleOf obj, instId, data⟩] }
      if reg.unpackOk (handleOf obj) instId data then
        (0, (sendObject reg c1 obj instId UAVTALK_TYPE_ACK).2)
      else (-1, c1)
    else (-1, conn)
  else if type = UAVTALK_TYPE_OBJ_REQ then
    match obj with
    | none => (0, (sendNack conn objId).2)
    | some _ => (0, (sendObject reg conn obj instId UAVTALK_TYPE_OBJ).2)
  else if type = UAVTALK_TYPE_NACK then
    (0, conn)
  else if type = UAVTALK_TYPE_ACK then
    if instId ≠ UAVOBJ_ALL_INSTANCES then
      (0, updateAck conn (handleOf obj) instId)
    else (-1, conn)
  else (-1, conn)

/-- `UAVTalkProcessInputStream`: feed one received byte into the framing
state machine.  Exactly one state transition per byte; on a complete valid
frame the Dispatcher is invoked synchronously (recorded in the ghost
`dispatches` log) and the machine returns to `SYNC`. -/
def UAVTalkProcessInputStream (reg : UAVObjRegistry)
    (c : UAVTalkConnectionData) (rxbyte : Nat) : UAVTalkConnectionData :=
  let stats1 := { c.stats with rxBytes := c.stats.rxBytes + 1 }
  let rxPL := if c.iproc.rxPacketLength < 0xffff then c.iproc.rxPacketLength + 1
    else c.iproc.rxPacketLength
  match c.iproc.state with
  | .SYNC =>
    if rxbyte ≠ UAVTALK_SYNC_VAL then
      { c with
        stats := stats1,
        iproc := { c.iproc with rxPacketLength := rxPL } }
    else
      { c with
        stats := stats1,
        iproc := { c.iproc with
                   cs := PIOS_CRC_updateByte 0 rxbyte,
                   rxPacketLength := 1,
                   state := .TYPE } }
  | .TYPE =>
    let cs1 := PIOS_CRC_updateByte c.iproc.cs rxbyte
    if (rxbyte &&& UAVTALK_TYPE_MASK) ≠ UAVTALK_TYPE_VER then
      { c with
        stats := stats1,
        iproc := { c.iproc with
                   cs := cs1,
                   rxPacketLength := rxPL,
                   state := .SYNC } }
    else
      { c with
        stats := stats1,
        iproc := { c.iproc with
                   cs := cs1,
                   rxPacketLength := rxPL,
                   type := rxbyte,
                   packet_size := 0,
                   state := .SIZE,
                   rxCount := 0 } }
  | .SIZE =>
    let cs1 := PIOS_CRC_updateByte c.iproc.cs rxbyte
    if c.iproc.rxCount = 0 then
      { c with
        stats := stats1,
        iproc := { c.iproc with
                   cs := cs1,
                   rxPacketLength := rxPL,
                   packet_size := c.iproc.packet_size + rxbyte,
                   rxCount := c.iproc.rxCount + 1 } }
    else
      let ps := c.iproc.packet_size + rxbyte * 256
      if ps < UAVTALK_MIN_HEADER_LENGTH ∨
          UAVTALK_MAX_HEADER_LENGTH + UAVTALK_MAX_PAYLOAD_LENGTH < ps then
        { c with
          stats := stats1,
          iproc := { c.iproc with
                     cs := cs1,
                     rxPacketLength := rxPL,
                     packet_size := ps,
                     state := .SYNC } }
      else
        { c with
          stats := stats1,
          iproc := { c.iproc with
                     cs := cs1,
                     rxPacketLength := rxPL,
                     packet_size := ps,
                     rxCount := 0,
                     objId := 0,
                     state := .OBJID } }
  | .OBJID =>
    let cs1 := PIOS_CRC_updateByte c.iproc.cs rxbyte
    let objId1 := c.iproc.objId + rxbyte * 256 ^ c.iproc.rxCount
    let rxCount1 := c.iproc.rxCount + 1
    if rxCount1 < 4 then
      { c with
        stats := stats1,
        iproc := { c.iproc with
                   cs := cs1,
                   rxPacketLength := rxPL,
                   objId := objId1,
                   rxCount := rxCount1 } }
    else
      let obj := UAVObjGetByID reg objId1
      if obj = none ∧ c.iproc.type ≠ UAVTALK_TYPE_OBJ_REQ then
        { c with
          stats := { stats1 with rxErrors := stats1.rxErrors + 1 },
          iproc := { c.iproc with
                     cs := cs1,
                     rxPacketLength := rxPL,
                     objId := objId1,
                     rxCount := rxCount1,
                     obj := obj,
                     state := .SYNC } }
      else
        let length := if c.iproc.type = UAVTALK_TYPE_OBJ_REQ ∨
            c.iproc.type = UAVTALK_TYPE_ACK ∨ c.iproc.type = UAVTALK_TYPE_NACK
          then 0 else numBytesOf obj
        if UAVTALK_MAX_PAYLOAD_LENGTH ≤ length then
          { c with
            stats := { stats1 with rxErrors := stats1.rxErrors + 1 },
            iproc := { c.iproc with
                       cs := cs1,
                       rxPacketLength := rxPL,
                       objId := objId1,
                       rxCount := rxCount1,
                       obj := obj,
                       length := length,
                       state := .SYNC } }
        else if rxPL + length ≠ c.iproc.packet_size then
          { c with
            stats := { stats1 with rxErrors := stats1.rxErrors + 1 },
            iproc := { c.iproc with
                       cs := cs1,
                       rxPacketLength := rxPL,
                       objId := objId1,
                       rxCount := rxCount1,
                       obj := obj,
                       length := length,
                       state := .SYNC } }
        else if obj = none then
          { c with
            stats := stats1,
            iproc := { c.iproc with
                       cs := cs1,
                       rxPacketLength := rxPL,
                       objId := objId1,
                       obj := obj,
                       length := length,
                       instId := 0,
                       state := .CS,
                       rxCount := 0 } }
        else if isSingleOf obj then
          if 0 < length then
            { c with
              stats := stats1,
              iproc := { c.iproc with
                         cs := cs1,
                         rxPacketLength := rxPL,
                         objId := objId1,
                         obj := obj,
                         length := length,
                         instId := 0,
                         state := .DATA,
                         rxCount := 0 } }
          else
            { c with
              stats := stats1,
              iproc := { c.iproc with
                         cs := cs1,
                         rxPacketLength := rxPL,
                         objId := objId1,
                         obj := obj,
                         length := length,
                         instId := 0,
                         state := .CS,
                         rxCount := 0 } }
        else
          { c with
            stats := stats1,
            iproc := { c.iproc with
                       cs := cs1,
                       rxPacketLength := rxPL,
                       objId := objId1,
                       obj := obj,
                       length := length,
                       instId := 0,
                       state := .INSTID,
                       rxCount := 0 } }
  | .INSTID =>
    let cs1 := PIOS_CRC_updateByte c.iproc.cs rxbyte
    let instId1 := c.iproc.instId + rxbyte * 256 ^ c.iproc.rxCount
    let rxCount1 := c.iproc.rxCount + 1
    if rxCount1 < 2 then
      { c with
        stats := stats1,
        iproc := { c.iproc with
                   cs := cs1,
                   rxPacketLength := rxPL,
                   instId := instId1,
                   rxCount := rxCount1 } }
    else if 0 < c.iproc.length then
      { c with
        stats := stats1,
        iproc := { c.iproc with
                   cs := cs1,
                   rxPacketLength := rxPL,
                   instId := instId1,
                   rxCount := 0,
                   state := .DATA } }
    else
      { c with
        stats := stats1,
        iproc := { c.iproc with
                   cs := cs1,
                   rxPacketLength := rxPL,
                   instId := instId1,
                   rxCount := 0,
                   state := .CS } }
  | .DATA =>
    let cs1 := PIOS_CRC_updateByte c.iproc.cs rxbyte
    let buf1 := bufSet c.rxBuffer c.iproc.rxCount rxbyte
    let rxCount1 := c.iproc.rxCount + 1
    if rxCount1 < c.iproc.length then
      { c with
        stats := stats1,
        rxBuffer := buf1,
        iproc := { c.iproc with
                   cs := cs1,
                   rxPacketLength := rxPL,
                   rxCount := rxCount1 } }
    else
      { c with
        stats := stats1,
        rxBuffer := buf1,
        iproc := { c.iproc with
                   cs := cs1,
                   rxPacketLength := rxPL,
                   state := .CS,
                   rxCount := 0 } }
  | .CS =>
    if rxbyte ≠ c.iproc.cs then
      { c with
        stats := { stats1 with rxErrors := stats1.rxErrors + 1 },
        iproc := { c.iproc with rxPacketLength := rxPL, state := .SYNC } }
    else if rxPL ≠ c.iproc.packet_size + 1 then
      { c with
        stats := { stats1 with rxErrors := stats1.rxErrors + 1 },
        iproc := { c.iproc with rxPacketLength := rxPL, state := .SYNC } }
    else
      let data := c.rxBuffer.take c.iproc.length
      let c1 := { c with
        stats := stats1,
        iproc := { c.iproc with rxPacketLength := rxPL, state := .SYNC },
        dispatches := c.dispatches ++
          [⟨c.iproc.type, c.iproc.objId, c.iproc.instId, data⟩] }
      let c2 := (receiveObject reg c1 c.iproc.type c.iproc.objId c.iproc.instId data).2
      { c2 with
        stats := { c2.stats with
                   rxObjectBytes := c2.stats.rxObjectBytes + c.iproc.length,
                   rxObjects := c2.stats.rxObjects + 1 } }

/-- Feed a whole byte sequence into the receive state machine, one byte at
a time (iterated `UAVTalkProcessInputStream`). -/
def UAVTalkProcessStream (reg : UAVObjRegistry) (conn : UAVTalkConnectionData)
    (bytes : List Nat) : UAVTalkConnectionData :=
  bytes.foldl (UAVTalkProcessInputStream reg) conn

/-- The pre-wait phase of a blocking transaction in `objectTransaction`:
take the transaction lock, record the pending target object/instance, and
transmit the frame. -/
def objectTransactionStart (reg : UAVObjRegistry) (conn : UAVTalkConnectionData)
    (obj : Option UAVObjDef) (instId ty : Nat) : UAVTalkConnectionData :=
  let c1 := { conn with
              transLock := true,
              respObj := handleOf obj,
              respInstId := instId }
  (sendObject reg c1 obj instId ty).2

/-- The post-wait phase of a blocking transaction in `objectTransaction`:
`xSemaphoreTake(respSema, timeout)` succeeded exactly when the completion
semaphore was given during the wait.  On success release the transaction
lock and return 0; on timeout reset the semaphore, clear the pending
object, release the transaction lock and return -1. -/
def objectTransactionFinish (conn : UAVTalkConnectionData) :
    Int × UAVTalkConnectionData :=
  if conn.respSema then
    (0, { conn with respSema := false, transLock := false })
  else
    (-1, { conn with respSema := false, respObj := 0, transLock := false })

/-- `objectTransaction`: for DATA-WITH-ACK and REQUEST kinds, a blocking
transaction — start phase, then the receive task processes the `inbound`
bytes that arrive during the wait, then the wait resolves; for the DATA
kind a fire-and-forget send.  The concurrent wait is modelled sequentially:
`inbound` are the bytes fed to the receive state machine before the wait
resolves, and the wait succeeds exactly when the completion semaphore was
given by then (a never-raised signal is `inbound` giving no semaphore,
resolving as timeout). -/
def objectTransaction (reg : UAVObjRegistry) (conn : UAVTalkConnectionData)
    (obj : Option UAVObjDef) (instId ty : Nat) (inbound : List Nat) :
    Int × UAVTalkConnectionData :=
  if ty = UAVTALK_TYPE_OBJ_ACK ∨ ty = UAVTALK_TYPE_OBJ_REQ then
    objectTransactionFinish
      (UAVTalkProcessStream reg (objectTransactionStart reg conn obj instId ty) inbound)
  else if ty = UAVTALK_TYPE_OBJ then
    (0, (sendObject reg conn obj instId UAVTALK_TYPE_OBJ).2)
  else (-1, conn)

/-- `UAVTalkSendObject`: send an object, as a blocking DATA-WITH-ACK
transaction when `acked = 1`, else as a fire-and-forget DATA send. -/
def UAVTalkSendObject (reg : UAVObjRegistry) (conn : UAVTalkConnectionData)
    (obj : Option UAVObjDef) (instId acked : Nat) (inbound : List Nat) :
    Int × UAVTalkConnectionData :=
  if acked = 1 then
    objectTransaction reg conn obj instId UAVTALK_TYPE_OBJ_ACK inbound
  else
    objectTransaction reg conn obj instId UAVTALK_TYPE_OBJ inbound

/-- `UAVTalkSendObjectRequest`: blocking REQUEST transaction. -/
def UAVTalkSendObjectRequest (reg : UAVObjRegistry) (conn : UAVTalkConnectionData)
    (obj : Option UAVObjDef) (instId : Nat) (inbound : List Nat) :
    Int × UAVTalkConnectionData :=
  objectTransaction reg conn obj instId UAVTALK_TYPE_OBJ_REQ inbound

/-- The freshly initialized connection state built by `UAVTalkInitialize`
(state machine in `SYNC`, zeroed statistics, semaphore taken to zero, no
pending transaction; the allocated buffers modelled zero-filled). -/
def freshConnection (maxPacketSize : Nat) : UAVTalkConnectionData :=
  { iproc := { state := .SYNC, type := 0, packet_size := 0, objId := 0,
               obj := none, instId := 0, length := 0, rxPacketLength := 0,
               rxCount := 0, cs := 0 },
    rxBuffer := List.replicate UAVTALK_MAX_PACKET_LENGTH 0,
    txSize := maxPacketSize,
    stats := { txBytes := 0, txObjectBytes := 0, txObjects := 0, rxBytes := 0,
               rxObjectBytes := 0, rxObjects := 0, rxErrors := 0 },
    respObj := 0, respInstId := 0, respSema := false, transLock := false,
    outputs := [], dispatches := [], unpacks := [] }

/-- `UAVTalkInitialize`: create a connection; rejected (`none`, the NULL
handle) when the configured maximum packet size is below 1. -/
def UAVTalkInitialize (maxPacketSize : Nat) : Option UAVTalkConnectionData :=
  if maxPacketSize < 1 then none else some (freshConnection maxPacketSize)

/-- Concrete registry for the DATA-WITH-ACK scenario: one single-instance
object of serialized size 4, id 0x12345678, whose current pack result is
the payload bytes 1, 2, 3, 4, and whose unpack always succeeds. -/
def regSingle4 : UAVObjRegistry :=
  { objs := [⟨0x12345678, true, 4, 1⟩],
    pack := fun o i => if o = 0x12345678 ∧ i = 0 then some [1, 2, 3, 4] else none,
    unpackOk := fun _ _ _ => true }

/-- Concrete registry with one multi-instance object: id 42, two instances,
serialized size 1 byte, current pack result the single byte 7. -/
def regMulti : UAVObjRegistry :=
  { objs := [⟨42, false, 1, 2⟩],
    pack := fun o _ => if o = 42 then some [7] else none,
    unpackOk := fun _ _ _ => true }

/-- Concrete empty registry: no object identifier resolves. -/
def regEmpty : UAVObjRegistry :=
  { objs := [], pack := fun _ _ => none, unpackOk := fun _ _ _ => false }

/-- Concrete registry whose pack codec always fails. -/
def regPackFail : UAVObjRegistry :=
  { objs := [⟨9, true, 2, 1⟩],
    pack := fun _ _ => none,
    unpackOk := fun _ _ _ => false }

/-! Helper lemmas. -/

/-- The fuel-based chunking loop restores the buffer on concatenation. -/
theorem chunkGo_flatten (n : Nat) (hn : 1 ≤ n) :
    ∀ (f : Nat) (l : List Nat), l.length ≤ f → (chunkGo f n l).flatten = l := by
  intro f
  induction f with
  | zero =>
    intro l hl
    have : l = [] := List.eq_nil_of_length_eq_zero (Nat.le_zero.mp hl)
    subst this
    rfl
  | succ f ih =>
    intro l hl
    cases l with
    | nil => rfl
    | cons b rest =>
      have hdrop : ((b :: rest).drop n).length ≤ f := by
        simp only [List.length_drop, List.length_cons] at *
        omega
      simp only [chunkGo, List.flatten_cons, ih _ hdrop, List.take_append_drop]

/-- Every chunk produced by the chunking loop has length at most `n`. -/
theorem chunkGo_mem_length (n : Nat) :
    ∀ (f : Nat) (l w : List Nat), w ∈ chunkGo f n l → w.length ≤ n := by
  intro f
  induction f with
  | zero => intro l w hw; simp [chunkGo] at hw
  | succ f ih =>
    intro l w hw
    cases l with
    | nil => simp [chunkGo] at hw
    | cons b rest =>
      simp only [chunkGo, List.mem_cons] at hw
      rcases hw with h | h
      · subst h
        simp [List.length_take_le]
      · exact ih _ _ h

/-- Concatenating the chunked writes of one frame restores the frame. -/
theorem chunkWrites_flatten (n : Nat) (l : List Nat) (hn : 1 ≤ n) :
    (chunkWrites n l).flatten = l :=
  chunkGo_flatten n hn l.length l le_rfl

/-- Every chunked write is at most `n` bytes long. -/
theorem chunkWrites_mem_length (n : Nat) (l w : List Nat)
    (hw : w ∈ chunkWrites n l) : w.length ≤ n :=
  chunkGo_mem_length n l.length l w hw

/-- A pack result of exactly the registered length is used verbatim. -/
theorem padTake_eq (n : Nat) (l : List Nat) (h : l.length = n) :
    padTake n l = l := by
  subst h
  simp [padTake]


/-! Concrete claim evaluations (the scenario registries are defined above). -/

/-- C1: the round-trip claim fails on the code for multi-instance objects:
for the registered 2-instance, 1-byte object 42, the transmitter
successfully emits the DATA frame for instance 0, yet feeding the emitted
bytes to a receive state machine in `Sync` yields no Dispatcher invocation
at all — the receiver's length check at the end of the object-id state
omits the 2-byte instance-id field, so it counts the frame as malformed,
increments the receive-error counter and resets to `Sync`. -/
theorem C1_multi_instance_frame_never_dispatches :
    (sendSingleObject regMulti (freshConnection 256)
      (UAVObjGetByID regMulti 42) 0 UAVTALK_TYPE_OBJ).1 = 0
    ∧ (UAVTalkProcessStream regMulti (freshConnection 256)
        (sendSingleObject regMulti (freshConnection 256)
          (UAVObjGetByID regMulti 42) 0 UAVTALK_TYPE_OBJ).2.outputs.flatten).dispatches = []
    ∧ (UAVTalkProcessStream regMulti (freshConnection 256)
        (sendSingleObject regMulti (freshConnection 256)
          (UAVObjGetByID regMulti 42) 0 UAVTALK_TYPE_OBJ).2.outputs.flatten).stats.rxErrors = 1
    ∧ (UAVTalkProcessStream regMulti (freshConnection 256)
        (sendSingleObject regMulti (freshConnection 256)
          (UAVObjGetByID regMulti 42) 0 UAVTALK_TYPE_OBJ).2.outputs.flatten).iproc.state
      = UAVTalkRxState.SYNC := by
  refine ⟨rfl, ?_, ?_, rfl⟩ <;> rfl

/-- C2 counterexample: for the single-instance 4-byte object, the DATA-WITH-ACK
frame's little-endian length field (bytes 2 and 3 of the wire) holds 12, not
13 as claimed: the length field counts the 8 header bytes plus the 4 payload
bytes and excludes the checksum byte. -/
theorem C2_length_field_is_12_not_13 :
    ((sendSingleObject regSingle4 (freshConnection 256)
        (UAVObjGetByID regSingle4 0x12345678) 0 UAVTALK_TYPE_OBJ_ACK).2.outputs.flatten[2]?
      ≠ some 13)
    ∧ (sendSingleObject regSingle4 (freshConnection 256)
        (UAVObjGetByID regSingle4 0x12345678) 0 UAVTALK_TYPE_OBJ_ACK).2.outputs.flatten[2]?
      = some 12
    ∧ (sendSingleObject regSingle4 (freshConnection 256)
        (UAVObjGetByID regSingle4 0x12345678) 0 UAVTALK_TYPE_OBJ_ACK).2.outputs.flatten[3]?
      = some 0 := by
  refine ⟨by decide, rfl, rfl⟩

/-- C2 (amended): the DATA-WITH-ACK frame for the single-instance 4-byte
object 0x12345678 with payload 1,2,3,4 is, on the wire: the start marker
0x3C, the kind byte 0x22 (DATA-WITH-ACK combined with the version tag), the
little-endian length field 12 (8 header bytes + 4 payload bytes, checksum
excluded), the four little-endian object-id bytes, the 4 payload bytes and
the checksum byte — 13 bytes in total; and a peer receiving that frame
unpacks the payload 1,2,3,4 into object 0x12345678 instance 0 and transmits
the 9-byte ACK frame for that object with zero payload, with no receive
error and the state machine back in `Sync`. -/
theorem C2_data_with_ack_scenario :
    (sendSingleObject regSingle4 (freshConnection 256)
        (UAVObjGetByID regSingle4 0x12345678) 0 UAVTALK_TYPE_OBJ_ACK).2.outputs.flatten
      = [0x3C, 0x22, 12, 0, 0x78, 0x56, 0x34, 0x12, 1, 2, 3, 4, 165]
    ∧ (UAVTalkProcessStream regSingle4 (freshConnection 256)
        [0x3C, 0x22, 12, 0, 0x78, 0x56, 0x34, 0x12, 1, 2, 3, 4, 165]).unpacks
      = [⟨0x12345678, 0, [1, 2, 3, 4]⟩]
    ∧ (UAVTalkProcessStream regSingle4 (freshConnection 256)
        [0x3C, 0x22, 12, 0, 0x78, 0x56, 0x34, 0x12, 1, 2, 3, 4, 165]).outputs
      = [[0x3C, 0x23, 8, 0, 0x78, 0x56, 0x34, 0x12, 13]]
    ∧ (UAVTalkProcessStream regSingle4 (freshConnection 256)
        [0x3C, 0x22, 12, 0, 0x78, 0x56, 0x34, 0x12, 1, 2, 3, 4, 165]).stats.rxErrors = 0
    ∧ (UAVTalkProcessStream regSingle4 (freshConnection 256)
        [0x3C, 0x22, 12, 0, 0x78, 0x56, 0x34, 0x12, 1, 2, 3, 4, 165]).iproc.state
      = UAVTalkRxState.SYNC := by
  refine ⟨rfl, rfl, rfl, rfl, rfl⟩

/-- C3 counterexample: sending the multi-instance object 42 with the
wildcard (all-instances) instance id and acknowledgment required is not
rejected at the call boundary: two DATA-WITH-ACK frames (one per instance)
are handed to the output sink. -/
theorem C3_wildcard_acked_send_emits_frames :
    (UAVTalkSendObject regMulti (freshConnection 256) (UAVObjGetByID regMulti 42)
        UAVOBJ_ALL_INSTANCES 1 []).2.outputs.length = 2
    ∧ (UAVTalkSendObject regMulti (freshConnection 256) (UAVObjGetByID regMulti 42)
        UAVOBJ_ALL_INSTANCES 1 []).2.outputs ≠ []
    ∧ (UAVTalkSendObject regMulti (freshConnection 256) (UAVObjGetByID regMulti 42)
        UAVOBJ_ALL_INSTANCES 1 []).2.stats.txObjects = 2 := by
  refine ⟨rfl, by decide, rfl⟩

/-- C4 counterexample: on a connection created with maximum chunk size 1,
the NACK transmitter hands the sink one single 9-byte write — larger than
the configured maximum chunk size. -/
theorem C4_nack_write_exceeds_chunk_size :
    (sendNack (freshConnection 1) 42).2.outputs = [nackFrame 42]
    ∧ (nackFrame 42).length = 9
    ∧ ¬(nackFrame 42).length ≤ (freshConnection 1).txSize := by
  refine ⟨rfl, rfl, by decide⟩

/-- C4 (amended): every write `sendSingleObject` hands to the output sink is
at most the configured maximum chunk size, and the concatenation of the
writes for one frame is the full serialized frame; `sendNack`, by contrast,
hands the sink its whole 9-byte frame as one single write (which is the full
serialized frame, but is not limited to the configured chunk size). -/
theorem C4_chunked_object_writes_single_nack_write :
    ∀ (reg : UAVObjRegistry) (conn : UAVTalkConnectionData) (obj : Option UAVObjDef)
      (instId ty objId : Nat) (F : List Nat),
      1 ≤ conn.txSize → txFrame reg obj instId ty = some F →
      ((sendSingleObject reg conn obj instId ty).2.outputs
          = conn.outputs ++ chunkWrites conn.txSize F
        ∧ (∀ w ∈ chunkWrites conn.txSize F, w.length ≤ conn.txSize)
        ∧ (chunkWrites conn.txSize F).flatten = F)
      ∧ (sendNack conn objId).2.outputs = conn.outputs ++ [nackFrame objId] := by
  intro reg conn obj instId ty objId F hn hF
  refine ⟨⟨?_, fun w hw => chunkWrites_mem_length _ _ _ hw,
    chunkWrites_flatten _ _ hn⟩, rfl⟩
  simp [sendSingleObject, hF]

/-- C6: the single-frame transmit fails (with return -1) exactly when the
determined data length reaches the maximum payload bound or the registry
pack call fails; on failure the connection is unchanged — in particular
nothing is written to the output sink; and a length strictly below the
bound with a successful pack is transmitted successfully (return 0). -/
theorem C6_sendSingleObject_failure_conditions :
    ∀ (reg : UAVObjRegistry) (conn : UAVTalkConnectionData) (obj : Option UAVObjDef)
      (instId ty : Nat),
      ((sendSingleObject reg conn obj instId ty).1 = -1 ↔
        (UAVTALK_MAX_PAYLOAD_LENGTH ≤ sendLength obj ty ∨
          (0 < sendLength obj ty ∧ reg.pack (idOf obj) instId = none)))
      ∧ ((sendSingleObject reg conn obj instId ty).1 = -1 →
          (sendSingleObject reg conn obj instId ty).2 = conn)
      ∧ (sendLength obj ty < UAVTALK_MAX_PAYLOAD_LENGTH →
          (0 < sendLength obj ty → (reg.pack (idOf obj) instId).isSome) →
          (sendSingleObject reg conn obj instId ty).1 = 0) := by
  intro reg conn obj instId ty
  by_cases hL : UAVTALK_MAX_PAYLOAD_LENGTH ≤ sendLength obj ty
  · have hF : txFrame reg obj instId ty = none := by
      simp [txFrame, hL]
    refine ⟨?_, ?_, ?_⟩
    · simp [sendSingleObject, hF, hL]
    · intro _; simp [sendSingleObject, hF]
    · intro h; omega
  · by_cases h0 : 0 < sendLength obj ty
    · cases hp : reg.pack (idOf obj) instId with
      | none =>
        have hF : txFrame reg obj instId ty = none := by
          simp [txFrame, hL, h0, hp, Nat.not_le.mpr (Nat.lt_of_not_le hL)]
        refine ⟨?_, ?_, ?_⟩
        · simp [sendSingleObject, hF, h0, hp]
        · intro _; simp [sendSingleObject, hF]
        · intro _ hs
          exact absurd (hs h0) (by simp)
      | some pl =>
        have hF : ∃ w, txFrame reg obj instId ty = some w := by
          simp only [txFrame, hp]
          rw [if_neg hL, if_pos h0]
          exact ⟨_, rfl⟩
        obtain ⟨w, hw⟩ := hF
        refine ⟨?_, ?_, ?_⟩
        · simp [sendSingleObject, hw, hL, hp]
        · intro hc
          simp [sendSingleObject, hw] at hc
        · intro _ _; simp [sendSingleObject, hw]
    · have hF : ∃ w, txFrame reg obj instId ty = some w := by
        simp only [txFrame]
        rw [if_neg hL, if_neg h0]
        exact ⟨_, rfl⟩
      obtain ⟨w, hw⟩ := hF
      refine ⟨?_, ?_, ?_⟩
      · simp [sendSingleObject, hw, hL, h0]
      · intro hc
        simp [sendSingleObject, hw] at hc
      · intro _ _; simp [sendSingleObject, hw]

/-- `sendSingleObject` with the ACK kind always succeeds (zero data length,
no pack call) and counts one transmitted object. -/
theorem sendSingleObject_ack_succeeds (reg : UAVObjRegistry)
    (conn : UAVTalkConnectionData) (obj : Option UAVObjDef) (instId : Nat) :
    (sendSingleObject reg conn obj instId UAVTALK_TYPE_ACK).1 = 0
    ∧ (sendSingleObject reg conn obj instId UAVTALK_TYPE_ACK).2.stats.txObjects
        = conn.stats.txObjects + 1 := by
  have hF : ∃ w, txFrame reg obj instId UAVTALK_TYPE_ACK = some w := by
    simp only [txFrame, sendLength]
    norm_num [UAVTALK_MAX_PAYLOAD_LENGTH, UAVTALK_MAX_PACKET_LENGTH,
      UAVTALK_MAX_HEADER_LENGTH, UAVTALK_CHECKSUM_LENGTH, UAVTALK_TYPE_ACK,
      UAVTALK_TYPE_OBJ_REQ, UAVTALK_TYPE_VER]
  obtain ⟨w, hw⟩ := hF
  exact ⟨by simp [sendSingleObject, hw], by simp [sendSingleObject, hw]⟩

/-- C9: an inbound DATA or ACK frame for a registered object with a
non-wildcard instance id completes the pending transaction exactly when the
pending target object matches and the pending target instance matches
exactly or is the wildcard: on a match the completion semaphore is given
and the pending slot is cleared; otherwise the pending slot, the semaphore
and the statistics are unchanged and the dispatcher reports no error.  A
matching pending target is in particular a pending one (the cleared slot
holds the NULL handle 0, and registered handles are nonzero). -/
theorem C9_pending_transaction_match (reg : UAVObjRegistry)
    (conn : UAVTalkConnectionData) (d : UAVObjDef) (instId : Nat)
    (data : List Nat) (ty : Nat)
    (hlook : UAVObjGetByID reg d.objId = some d)
    (hid : d.objId ≠ 0)
    (hinst : instId ≠ UAVOBJ_ALL_INSTANCES)
    (hty : ty = UAVTALK_TYPE_OBJ ∨ ty = UAVTALK_TYPE_ACK) :
    ((conn.respObj = d.objId ∧
        (conn.respInstId = instId ∨ conn.respInstId = UAVOBJ_ALL_INSTANCES)) →
      ((receiveObject reg conn ty d.objId instId data).2.respSema = true
        ∧ (receiveObject reg conn ty d.objId instId data).2.respObj = 0))
    ∧ (¬(conn.respObj = d.objId ∧
        (conn.respInstId = instId ∨ conn.respInstId = UAVOBJ_ALL_INSTANCES)) →
      ((receiveObject reg conn ty d.objId instId data).2.respObj = conn.respObj
        ∧ (receiveObject reg conn ty d.objId instId data).2.respInstId = conn.respInstId
        ∧ (receiveObject reg conn ty d.objId instId data).2.respSema = conn.respSema
        ∧ (receiveObject reg conn ty d.objId instId data).1 = 0
        ∧ (receiveObject reg conn ty d.objId instId data).2.stats = conn.stats))
    ∧ (conn.respObj = d.objId → conn.respObj ≠ 0) := by
  refine ⟨?_, ?_, fun h => h ▸ hid⟩ <;> intro hm <;>
    rcases hty with h | h <;> subst h <;>
      simp [receiveObject, hlook, hinst, updateAck, handleOf, idOf, hm,
        UAVTALK_TYPE_OBJ, UAVTALK_TYPE_ACK, UAVTALK_TYPE_OBJ_REQ,
        UAVTALK_TYPE_OBJ_ACK, UAVTALK_TYPE_NACK, UAVTALK_TYPE_VER]

/-- C10: for an inbound DATA (no-ack) frame with a non-wildcard instance id
the pending-transaction check runs unconditionally after the registry
unpack — a matching pending transaction is completed (semaphore given, slot
cleared) with no assumption on the unpack result; by contrast, for a
DATA-WITH-ACK frame a failed unpack means no ACK is transmitted (the output
sink sees nothing and the dispatcher returns -1), while a successful unpack
transmits the ACK (one more transmitted object). -/
theorem C10_unpack_failure_asymmetry (reg : UAVObjRegistry)
    (conn : UAVTalkConnectionData) (d : UAVObjDef) (instId : Nat)
    (data : List Nat)
    (hlook : UAVObjGetByID reg d.objId = some d)
    (hinst : instId ≠ UAVOBJ_ALL_INSTANCES) :
    ((conn.respObj = d.objId ∧
        (conn.respInstId = instId ∨ conn.respInstId = UAVOBJ_ALL_INSTANCES)) →
      ((receiveObject reg conn UAVTALK_TYPE_OBJ d.objId instId data).2.respSema = true
        ∧ (receiveObject reg conn UAVTALK_TYPE_OBJ d.objId instId data).2.respObj = 0))
    ∧ (reg.unpackOk d.objId instId data = false →
        ((receiveObject reg conn UAVTALK_TYPE_OBJ_ACK d.objId instId data).2.outputs
            = conn.outputs
          ∧ (receiveObject reg conn UAVTALK_TYPE_OBJ_ACK d.objId instId data).1 = -1))
    ∧ (reg.unpackOk d.objId instId data = true →
        (receiveObject reg conn UAVTALK_TYPE_OBJ_ACK d.objId instId data).2.stats.txObjects
          = conn.stats.txObjects + 1) := by
  refine ⟨fun hm => ?_, fun hu => ?_, fun hu => ?_⟩
  · simp [receiveObject, hlook, hinst, updateAck, handleOf, idOf, hm,
      UAVTALK_TYPE_OBJ]
  · simp [receiveObject, hlook, hinst, handleOf, idOf, hu,
      UAVTALK_TYPE_OBJ, UAVTALK_TYPE_OBJ_ACK]
  · have hsend := (sendSingleObject_ack_succeeds reg
      { conn with unpacks := conn.unpacks ++ [⟨d.objId, instId, data⟩] }
      (some d) instId).2
    simp only [UAVOBJ_ALL_INSTANCES] at hinst
    simpa [receiveObject, hlook, hinst, handleOf, idOf, hu, sendObject,
      isSingleOf, UAVOBJ_ALL_INSTANCES, UAVTALK_TYPE_OBJ, UAVTALK_TYPE_OBJ_ACK,
      UAVTALK_TYPE_OBJ_REQ, UAVTALK_TYPE_NACK, UAVTALK_TYPE_ACK] using hsend

/-- The transmitter never touches the pending-transaction fields. -/
theorem sendSingleObject_resp (reg : UAVObjRegistry) (c : UAVTalkConnectionData)
    (obj : Option UAVObjDef) (instId ty : Nat) :
    (sendSingleObject reg c obj instId ty).2.respObj = c.respObj
    ∧ (sendSingleObject reg c obj instId ty).2.respSema = c.respSema
    ∧ (sendSingleObject reg c obj instId ty).2.transLock = c.transLock := by
  cases hw : txFrame reg obj instId ty <;> simp [sendSingleObject, hw]

/-- The all-instances transmit loop never touches the pending-transaction
fields. -/
theorem foldl_sendSingleObject_resp (reg : UAVObjRegistry)
    (obj : Option UAVObjDef) (ty : Nat) :
    ∀ (l : List Nat) (c : UAVTalkConnectionData),
      ((l.foldl (fun c n => (sendSingleObject reg c obj n ty).2) c).respObj = c.respObj)
      ∧ ((l.foldl (fun c n => (sendSingleObject reg c obj n ty).2) c).respSema = c.respSema)
      ∧ ((l.foldl (fun c n => (sendSingleObject reg c obj n ty).2) c).transLock = c.transLock) := by
  intro l
  induction l with
  | nil => exact fun c => ⟨rfl, rfl, rfl⟩
  | cons a l ih =>
    intro c
    obtain ⟨h1, h2, h3⟩ := ih (sendSingleObject reg c obj a ty).2
    obtain ⟨g1, g2, g3⟩ := sendSingleObject_resp reg c obj a ty
    exact ⟨by simp only [List.foldl_cons]; rw [h1, g1],
      by simp only [List.foldl_cons]; rw [h2, g2],
      by simp only [List.foldl_cons]; rw [h3, g3]⟩

/-- `sendObject` never touches the pending-transaction fields. -/
theorem sendObject_resp (reg : UAVObjRegistry) (c : UAVTalkConnectionData)
    (obj : Option UAVObjDef) (instId ty : Nat) :
    (sendObject reg c obj instId ty).2.respObj = c.respObj
    ∧ (sendObject reg c obj instId ty).2.respSema = c.respSema
    ∧ (sendObject reg c obj instId ty).2.transLock = c.transLock := by
  simp only [sendObject]
  split_ifs <;>
    first
      | exact foldl_sendSingleObject_resp reg obj ty _ c
      | exact sendSingleObject_resp reg c obj _ _
      | exact ⟨rfl, rfl, rfl⟩

/-- `updateAck` either leaves the pending-transaction fields unchanged or
completes: semaphore given and slot cleared. -/
theorem updateAck_resp_cases (c : UAVTalkConnectionData) (objHandle instId : Nat) :
    ((updateAck c objHandle instId).respObj = c.respObj
      ∧ (updateAck c objHandle instId).respSema = c.respSema)
    ∨ ((updateAck c objHandle instId).respSema = true
      ∧ (updateAck c objHandle instId).respObj = 0) := by
  unfold updateAck
  split_ifs with hm
  · exact Or.inr ⟨rfl, rfl⟩
  · exact Or.inl ⟨rfl, rfl⟩

/-- The dispatcher either leaves the pending-transaction fields unchanged
or completes the transaction (semaphore given, slot cleared). -/
theorem receiveObject_resp_cases (reg : UAVObjRegistry) (c : UAVTalkConnectionData)
    (ty objId instId : Nat) (data : List Nat) :
    ((receiveObject reg c ty objId instId data).2.respObj = c.respObj
      ∧ (receiveObject reg c ty objId instId data).2.respSema = c.respSema)
    ∨ ((receiveObject reg c ty objId instId data).2.respSema = true
      ∧ (receiveObject reg c ty objId instId data).2.respObj = 0) := by
  unfold receiveObject
  by_cases h1 : ty = UAVTALK_TYPE_OBJ
  · simp only [h1, if_pos]
    split_ifs with h2
    · exact updateAck_resp_cases _ _ _
    · exact Or.inl ⟨rfl, rfl⟩
  · rw [if_neg h1]
    by_cases h2 : ty = UAVTALK_TYPE_OBJ_ACK
    · simp only [h2, if_pos]
      split_ifs with h3 h4
      · obtain ⟨g1, g2, _⟩ := sendObject_resp reg
          { c with unpacks := c.unpacks ++
            [⟨handleOf (UAVObjGetByID reg objId), instId, data⟩] }
          (UAVObjGetByID reg objId) instId UAVTALK_TYPE_ACK
        exact Or.inl ⟨g1, g2⟩
      · exact Or.inl ⟨rfl, rfl⟩
      · exact Or.inl ⟨rfl, rfl⟩
    · rw [if_neg h2]
      by_cases h3 : ty = UAVTALK_TYPE_OBJ_REQ
      · simp only [h3, if_pos]
        cases hob : UAVObjGetByID reg objId with
        | none => exact Or.inl ⟨rfl, rfl⟩
        | some d =>
          obtain ⟨g1, g2, _⟩ := sendObject_resp reg c (some d) instId UAVTALK_TYPE_OBJ
          exact Or.inl ⟨g1, g2⟩
      · rw [if_neg h3]
        by_cases h4 : ty = UAVTALK_TYPE_NACK
        · simp [h4]
        · rw [if_neg h4]
          by_cases h5 : ty = UAVTALK_TYPE_ACK
          · simp only [h5, if_pos]
            split_ifs with h6
            · exact updateAck_resp_cases _ _ _
            · exact Or.inl ⟨rfl, rfl⟩
          · rw [if_neg h5]
            exact Or.inl ⟨rfl, rfl⟩

set_option maxHeartbeats 2000000 in
/-- One step of the receive state machine either leaves the
pending-transaction fields unchanged or completes the transaction. -/
theorem step_resp_cases (reg : UAVObjRegistry) (c : UAVTalkConnectionData) (b : Nat) :
    ((UAVTalkProcessInputStream reg c b).respObj = c.respObj
      ∧ (UAVTalkProcessInputStream reg c b).respSema = c.respSema)
    ∨ ((UAVTalkProcessInputStream reg c b).respSema = true
      ∧ (UAVTalkProcessInputStream reg c b).respObj = 0) := by
  unfold UAVTalkProcessInputStream
  cases hs : c.iproc.state <;> simp only [hs] <;> split_ifs <;>
    try exact Or.inl ⟨rfl, rfl⟩
  all_goals exact receiveObject_resp_cases reg _ _ _ _ _

/-- Invariant of the receive task: whenever the completion semaphore is
given, the pending slot has been cleared (the semaphore is only ever given
by `updateAck`, which clears the slot in the same critical section). -/
theorem stream_sema_clears_slot (reg : UAVObjRegistry) :
    ∀ (bytes : List Nat) (c : UAVTalkConnectionData),
      (c.respSema = true → c.respObj = 0) →
      ((UAVTalkProcessStream reg c bytes).respSema = true →
        (UAVTalkProcessStream reg c bytes).respObj = 0) := by
  intro bytes
  induction bytes with
  | nil => exact fun c h => h
  | cons b rest ih =>
    intro c h
    refine ih (UAVTalkProcessInputStream reg c b) ?_
    rcases step_resp_cases reg c b with ⟨h1, h2⟩ | ⟨h1, h2⟩
    · intro hs; rw [h1]; exact h (h2 ▸ hs)
    · intro _; exact h2

/-- C8: a blocking transaction returns success exactly when the completion
semaphore was given before the wait resolved; in both outcomes the
pending-transaction slot ends cleared (on success it was cleared by
`updateAck` together with giving the semaphore; on timeout the transaction
is cancelled explicitly), the transaction lock ends released, and the
binary semaphore ends taken back to zero. -/
theorem C8_blocking_transaction_resolution (reg : UAVObjRegistry)
    (conn : UAVTalkConnectionData) (obj : Option UAVObjDef) (instId ty : Nat)
    (inbound : List Nat)
    (hty : ty = UAVTALK_TYPE_OBJ_ACK ∨ ty = UAVTALK_TYPE_OBJ_REQ)
    (hsema : conn.respSema = false) :
    ((objectTransaction reg conn obj instId ty inbound).1 = 0 ↔
      (UAVTalkProcessStream reg (objectTransactionStart reg conn obj instId ty)
        inbound).respSema = true)
    ∧ (objectTransaction reg conn obj instId ty inbound).2.respObj = 0
    ∧ (objectTransaction reg conn obj instId ty inbound).2.transLock = false
    ∧ (objectTransaction reg conn obj instId ty inbound).2.respSema = false := by
  have hstart : (objectTransactionStart reg conn obj instId ty).respSema = false := by
    unfold objectTransactionStart
    rw [(sendObject_resp reg _ obj instId ty).2.1]
    exact hsema
  have hP := stream_sema_clears_slot reg inbound
    (objectTransactionStart reg conn obj instId ty)
    (fun h => absurd h (by rw [hstart]; exact Bool.false_ne_true))
  rw [objectTransaction, if_pos hty]
  unfold objectTransactionFinish
  by_cases h2 : (UAVTalkProcessStream reg
      (objectTransactionStart reg conn obj instId ty) inbound).respSema = true
  · rw [if_pos h2]
    exact ⟨by simp [h2], hP h2, rfl, rfl⟩
  · rw [if_neg h2]
    refine ⟨?_, rfl, rfl, rfl⟩
    constructor
    · intro h; exact absurd h (by simp)
    · intro h; exact absurd h h2

/-- Frame serialization succeeds when the data length is below the bound
and the pack call succeeds when needed. -/
theorem txFrame_isSome (reg : UAVObjRegistry) (obj : Option UAVObjDef)
    (instId ty : Nat) (hL : sendLength obj ty < UAVTALK_MAX_PAYLOAD_LENGTH)
    (hp : 0 < sendLength obj ty → (reg.pack (idOf obj) instId).isSome) :
    (txFrame reg obj instId ty).isSome := by
  simp only [txFrame]
  rw [if_neg (Nat.not_le.mpr hL)]
  by_cases h0 : 0 < sendLength obj ty
  · obtain ⟨pl, hpl⟩ := Option.isSome_iff_exists.mp (hp h0)
    rw [if_pos h0, hpl]
    rfl
  · rw [if_neg h0]
    rfl

/-- A successful single-object transmit counts one transmitted object. -/
theorem sendSingleObject_txObjects (reg : UAVObjRegistry)
    (c : UAVTalkConnectionData) (obj : Option UAVObjDef) (instId ty : Nat)
    (h : (txFrame reg obj instId ty).isSome) :
    (sendSingleObject reg c obj instId ty).2.stats.txObjects
      = c.stats.txObjects + 1 := by
  obtain ⟨w, hw⟩ := Option.isSome_iff_exists.mp h
  simp [sendSingleObject, hw]

/-- The all-instances transmit loop counts one transmitted object per
instance when every frame serializes. -/
theorem foldl_sendSingleObject_txObjects (reg : UAVObjRegistry)
    (obj : Option UAVObjDef) (ty : Nat) :
    ∀ (l : List Nat) (c : UAVTalkConnectionData),
      (∀ i ∈ l, (txFrame reg obj i ty).isSome) →
      (l.foldl (fun c n => (sendSingleObject reg c obj n ty).2) c).stats.txObjects
        = c.stats.txObjects + l.length := by
  intro l
  induction l with
  | nil => intro c _; simp
  | cons a l ih =>
    intro c h
    simp only [List.foldl_cons, List.length_cons]
    rw [ih _ (fun i hi => h i (List.mem_cons_of_mem a hi)),
      sendSingleObject_txObjects reg c obj a ty (h a (List.mem_cons_self a l))]
    omega

/-- C3 (amended): a send with the wildcard instance id and acknowledgment
required is accepted, not rejected: the attempted transaction transmits one
DATA-WITH-ACK frame per instance of the multi-instance object, then blocks
waiting for an acknowledgment; with no reply it resolves as a timeout
failure (-1) with the pending slot cleared and the transaction lock
released.  (Only the ACK kind rejects a wildcard instance id inside
`sendObject`.) -/
theorem C3_wildcard_acked_send_accepted (reg : UAVObjRegistry)
    (conn : UAVTalkConnectionData) (d : UAVObjDef)
    (hmulti : d.isSingle = false)
    (hlen : d.numBytes < UAVTALK_MAX_PAYLOAD_LENGTH)
    (hpack : ∀ i, (reg.pack d.objId i).isSome)
    (hsema : conn.respSema = false) :
    (UAVTalkSendObject reg conn (some d) UAVOBJ_ALL_INSTANCES 1 []).1 = -1
    ∧ (UAVTalkSendObject reg conn (some d) UAVOBJ_ALL_INSTANCES 1 []).2.stats.txObjects
        = conn.stats.txObjects + d.numInstances
    ∧ (UAVTalkSendObject reg conn (some d) UAVOBJ_ALL_INSTANCES 1 []).2.respObj = 0
    ∧ (UAVTalkSendObject reg conn (some d) UAVOBJ_ALL_INSTANCES 1 []).2.transLock
        = false := by
  have hsend : ∀ (c1 : UAVTalkConnectionData),
      sendObject reg c1 (some d) UAVOBJ_ALL_INSTANCES UAVTALK_TYPE_OBJ_ACK
        = (0, (List.range d.numInstances).foldl
            (fun c n => (sendSingleObject reg c (some d) n UAVTALK_TYPE_OBJ_ACK).2) c1) := by
    intro c1
    simp [sendObject, isSingleOf, hmulti, numInstancesOf,
      UAVTALK_TYPE_OBJ, UAVTALK_TYPE_OBJ_ACK]
  have hframes : ∀ i ∈ List.range d.numInstances,
      (txFrame reg (some d) i UAVTALK_TYPE_OBJ_ACK).isSome := by
    intro i _
    refine txFrame_isSome reg (some d) i UAVTALK_TYPE_OBJ_ACK ?_ ?_
    · simpa [sendLength, numBytesOf, UAVTALK_TYPE_OBJ_ACK, UAVTALK_TYPE_OBJ_REQ,
        UAVTALK_TYPE_ACK] using hlen
    · intro _
      simpa [idOf] using hpack i
  rw [UAVTalkSendObject, if_pos rfl, objectTransaction, if_pos (Or.inl rfl)]
  simp only [UAVTalkProcessStream, List.foldl_nil, objectTransactionStart]
  rw [hsend]
  have hresp := foldl_sendSingleObject_resp reg (some d) UAVTALK_TYPE_OBJ_ACK
    (List.range d.numInstances)
    { conn with
      transLock := true,
      respObj := handleOf (some d),
      respInstId := UAVOBJ_ALL_INSTANCES }
  have htx := foldl_sendSingleObject_txObjects reg (some d) UAVTALK_TYPE_OBJ_ACK
    (List.range d.numInstances)
    { conn with
      transLock := true,
      respObj := handleOf (some d),
      respInstId := UAVOBJ_ALL_INSTANCES } hframes
  unfold objectTransactionFinish
  rw [if_neg (by rw [hresp.2.1]; simpa using hsema)]
  refine ⟨rfl, ?_, rfl, rfl⟩
  simpa using htx

/-- Witness for C3 (amended) at the registered 2-instance object 42. -/
theorem C3_wildcard_acked_send_accepted_witness :
    (UAVTalkSendObject regMulti (freshConnection 256)
        (some ⟨42, false, 1, 2⟩) UAVOBJ_ALL_INSTANCES 1 []).1 = -1
    ∧ (UAVTalkSendObject regMulti (freshConnection 256)
        (some ⟨42, false, 1, 2⟩) UAVOBJ_ALL_INSTANCES 1 []).2.stats.txObjects
        = (freshConnection 256).stats.txObjects + (⟨42, false, 1, 2⟩ : UAVObjDef).numInstances
    ∧ (UAVTalkSendObject regMulti (freshConnection 256)
        (some ⟨42, false, 1, 2⟩) UAVOBJ_ALL_INSTANCES 1 []).2.respObj = 0
    ∧ (UAVTalkSendObject regMulti (freshConnection 256)
        (some ⟨42, false, 1, 2⟩) UAVOBJ_ALL_INSTANCES 1 []).2.transLock = false :=
  C3_wildcard_acked_send_accepted regMulti (freshConnection 256) ⟨42, false, 1, 2⟩
    rfl (by decide) (fun i => by simp [regMulti]) rfl

/-- Witness for C4 (amended) on a connection with maximum chunk size 1. -/
theorem C4_chunked_object_writes_single_nack_witness :
    ((sendSingleObject regSingle4 (freshConnection 1)
        (some ⟨0x12345678, true, 4, 1⟩) 0 UAVTALK_TYPE_OBJ).2.outputs
        = (freshConnection 1).outputs ++ chunkWrites (freshConnection 1).txSize
            [60, 32, 12, 0, 120, 86, 52, 18, 1, 2, 3, 4, 155]
      ∧ (∀ w ∈ chunkWrites (freshConnection 1).txSize
            [60, 32, 12, 0, 120, 86, 52, 18, 1, 2, 3, 4, 155],
          w.length ≤ (freshConnection 1).txSize)
      ∧ (chunkWrites (freshConnection 1).txSize
            [60, 32, 12, 0, 120, 86, 52, 18, 1, 2, 3, 4, 155]).flatten
          = [60, 32, 12, 0, 120, 86, 52, 18, 1, 2, 3, 4, 155])
    ∧ (sendNack (freshConnection 1) 77).2.outputs
        = (freshConnection 1).outputs ++ [nackFrame 77] :=
  C4_chunked_object_writes_single_nack_write regSingle4 (freshConnection 1)
    (some ⟨0x12345678, true, 4, 1⟩) 0 UAVTALK_TYPE_OBJ 77
    [60, 32, 12, 0, 120, 86, 52, 18, 1, 2, 3, 4, 155] (by decide) (by decide)

/-- Witness for C6 at the registry whose pack codec fails. -/
theorem C6_sendSingleObject_failure_conditions_witness :
    (sendSingleObject regPackFail (freshConnection 256)
        (some ⟨9, true, 2, 1⟩) 0 UAVTALK_TYPE_OBJ).1 = -1
    ∧ (sendSingleObject regPackFail (freshConnection 256)
        (some ⟨9, true, 2, 1⟩) 0 UAVTALK_TYPE_OBJ).2 = freshConnection 256
    ∧ (sendSingleObject regSingle4 (freshConnection 256)
        (some ⟨0x12345678, true, 4, 1⟩) 0 UAVTALK_TYPE_OBJ).1 = 0 :=
  ⟨(C6_sendSingleObject_failure_conditions regPackFail (freshConnection 256)
      (some ⟨9, true, 2, 1⟩) 0 UAVTALK_TYPE_OBJ).1.mpr
      (Or.inr ⟨by decide, by decide⟩),
    (C6_sendSingleObject_failure_conditions regPackFail (freshConnection 256)
      (some ⟨9, true, 2, 1⟩) 0 UAVTALK_TYPE_OBJ).2.1
      ((C6_sendSingleObject_failure_conditions regPackFail (freshConnection 256)
        (some ⟨9, true, 2, 1⟩) 0 UAVTALK_TYPE_OBJ).1.mpr
        (Or.inr ⟨by decide, by decide⟩)),
    (C6_sendSingleObject_failure_conditions regSingle4 (freshConnection 256)
      (some ⟨0x12345678, true, 4, 1⟩) 0 UAVTALK_TYPE_OBJ).2.2
      (by decide) (fun _ => by decide)⟩

/-- Witness for C8: a blocking REQUEST with no inbound bytes resolves as a
timeout failure with the slot cleared and the lock released. -/
theorem C8_blocking_transaction_resolution_witness :
    ((objectTransaction regSingle4 (freshConnection 256)
        (some ⟨0x12345678, true, 4, 1⟩) 0 UAVTALK_TYPE_OBJ_REQ []).1 = 0 ↔
      (UAVTalkProcessStream regSingle4 (objectTransactionStart regSingle4
        (freshConnection 256) (some ⟨0x12345678, true, 4, 1⟩) 0
        UAVTALK_TYPE_OBJ_REQ) []).respSema = true)
    ∧ (objectTransaction regSingle4 (freshConnection 256)
        (some ⟨0x12345678, true, 4, 1⟩) 0 UAVTALK_TYPE_OBJ_REQ []).2.respObj = 0
    ∧ (objectTransaction regSingle4 (freshConnection 256)
        (some ⟨0x12345678, true, 4, 1⟩) 0 UAVTALK_TYPE_OBJ_REQ []).2.transLock = false
    ∧ (objectTransaction regSingle4 (freshConnection 256)
        (some ⟨0x12345678, true, 4, 1⟩) 0 UAVTALK_TYPE_OBJ_REQ []).2.respSema = false :=
  C8_blocking_transaction_resolution regSingle4 (freshConnection 256)
    (some ⟨0x12345678, true, 4, 1⟩) 0 UAVTALK_TYPE_OBJ_REQ []
    (Or.inr rfl) rfl

/-- Witness for C9: an inbound ACK for the pending object completes the
transaction. -/
theorem C9_pending_transaction_match_witness :
    (receiveObject regSingle4
        { freshConnection 256 with respObj := 0x12345678, respInstId := 0 }
        UAVTALK_TYPE_ACK 0x12345678 0 []).2.respSema = true
    ∧ (receiveObject regSingle4
        { freshConnection 256 with respObj := 0x12345678, respInstId := 0 }
        UAVTALK_TYPE_ACK 0x12345678 0 []).2.respObj = 0 :=
  (C9_pending_transaction_match regSingle4
    { freshConnection 256 with respObj := 0x12345678, respInstId := 0 }
    ⟨0x12345678, true, 4, 1⟩ 0 [] UAVTALK_TYPE_ACK
    (by decide) (by decide) (by decide) (Or.inr rfl)).1 ⟨rfl, Or.inl rfl⟩

/-- Witness for C10 at the registry whose unpack always fails: the DATA
frame still completes the matching pending transaction, and the
DATA-WITH-ACK frame produces no ACK. -/
theorem C10_unpack_failure_asymmetry_witness :
    ((receiveObject regPackFail
        { freshConnection 256 with respObj := 9, respInstId := 0 }
        UAVTALK_TYPE_OBJ 9 0 []).2.respSema = true
      ∧ (receiveObject regPackFail
        { freshConnection 256 with respObj := 9, respInstId := 0 }
        UAVTALK_TYPE_OBJ 9 0 []).2.respObj = 0)
    ∧ ((receiveObject regPackFail
        { freshConnection 256 with respObj := 9, respInstId := 0 }
        UAVTALK_TYPE_OBJ_ACK 9 0 []).2.outputs
        = ({ freshConnection 256 with respObj := 9, respInstId := 0 }
            : UAVTalkConnectionData).outputs
      ∧ (receiveObject regPackFail
        { freshConnection 256 with respObj := 9, respInstId := 0 }
        UAVTALK_TYPE_OBJ_ACK 9 0 []).1 = -1) :=
  ⟨(C10_unpack_failure_asymmetry regPackFail
      { freshConnection 256 with respObj := 9, respInstId := 0 }
      ⟨9, true, 2, 1⟩ 0 [] (by decide) (by decide)).1 ⟨rfl, Or.inl rfl⟩,
    (C10_unpack_failure_asymmetry regPackFail
      { freshConnection 256 with respObj := 9, respInstId := 0 }
      ⟨9, true, 2, 1⟩ 0 [] (by decide) (by decide)).2.1 rfl⟩

/-! Step lemmas: one byte through the receive state machine, per state. -/

theorem step_SYNC_hit (reg : UAVObjRegistry) (c : UAVTalkConnectionData)
    (hs : c.iproc.state = .SYNC) :
    UAVTalkProcessInputStream reg c UAVTALK_SYNC_VAL =
      { c with
        stats := { c.stats with rxBytes := c.stats.rxBytes + 1 },
        iproc := { c.iproc with
                   cs := PIOS_CRC_updateByte 0 UAVTALK_SYNC_VAL,
                   rxPacketLength := 1,
                   state := .TYPE } } := by
  simp [UAVTalkProcessInputStream, hs]

theorem step_TYPE_ok (reg : UAVObjRegistry) (c : UAVTalkConnectionData) (b : Nat)
    (hs : c.iproc.state = .TYPE)
    (hver : b &&& UAVTALK_TYPE_MASK = UAVTALK_TYPE_VER) :
    UAVTalkProcessInputStream reg c b =
      { c with
        stats := { c.stats with rxBytes := c.stats.rxBytes + 1 },
        iproc := { c.iproc with
                   cs := PIOS_CRC_updateByte c.iproc.cs b,
                   rxPacketLength := if c.iproc.rxPacketLength < 0xffff
                     then c.iproc.rxPacketLength + 1 else c.iproc.rxPacketLength,
                   type := b,
                   packet_size := 0,
                   state := .SIZE,
                   rxCount := 0 } } := by
  simp [UAVTalkProcessInputStream, hs, hver]

theorem step_SIZE0 (reg : UAVObjRegistry) (c : UAVTalkConnectionData) (b : Nat)
    (hs : c.iproc.state = .SIZE) (hrc : c.iproc.rxCount = 0) :
    UAVTalkProcessInputStream reg c b =
      { c with
        stats := { c.stats with rxBytes := c.stats.rxBytes + 1 },
        iproc := { c.iproc with
                   cs := PIOS_CRC_updateByte c.iproc.cs b,
                   rxPacketLength := if c.iproc.rxPacketLength < 0xffff
                     then c.iproc.rxPacketLength + 1 else c.iproc.rxPacketLength,
                   packet_size := c.iproc.packet_size + b,
                   rxCount := c.iproc.rxCount + 1 } } := by
  simp [UAVTalkProcessInputStream, hs, hrc]

theorem step_SIZE1_ok (reg : UAVObjRegistry) (c : UAVTalkConnectionData) (b : Nat)
    (hs : c.iproc.state = .SIZE) (hrc : c.iproc.rxCount ≠ 0)
    (hok : ¬(c.iproc.packet_size + b * 256 < UAVTALK_MIN_HEADER_LENGTH ∨
      UAVTALK_MAX_HEADER_LENGTH + UAVTALK_MAX_PAYLOAD_LENGTH
        < c.iproc.packet_size + b * 256)) :
    UAVTalkProcessInputStream reg c b =
      { c with
        stats := { c.stats with rxBytes := c.stats.rxBytes + 1 },
        iproc := { c.iproc with
                   cs := PIOS_CRC_updateByte c.iproc.cs b,
                   rxPacketLength := if c.iproc.rxPacketLength < 0xffff
                     then c.iproc.rxPacketLength + 1 else c.iproc.rxPacketLength,
                   packet_size := c.iproc.packet_size + b * 256,
                   rxCount := 0,
                   objId := 0,
                   state := .OBJID } } := by
  simp only [UAVTalkProcessInputStream, hs]
  rw [if_neg hrc, if_neg hok]

theorem step_OBJID_acc (reg : UAVObjRegistry) (c : UAVTalkConnectionData) (b : Nat)
    (hs : c.iproc.state = .OBJID) (hlt : c.iproc.rxCount + 1 < 4) :
    UAVTalkProcessInputStream reg c b =
      { c with
        stats := { c.stats with rxBytes := c.stats.rxBytes + 1 },
        iproc := { c.iproc with
                   cs := PIOS_CRC_updateByte c.iproc.cs b,
                   rxPacketLength := if c.iproc.rxPacketLength < 0xffff
                     then c.iproc.rxPacketLength + 1 else c.iproc.rxPacketLength,
                   objId := c.iproc.objId + b * 256 ^ c.iproc.rxCount,
                   rxCount := c.iproc.rxCount + 1 } } := by
  simp only [UAVTalkProcessInputStream, hs]
  rw [if_pos hlt]
theorem step_OBJID_last_unknown_err (reg : UAVObjRegistry)
    (c : UAVTalkConnectionData) (b : Nat)
    (hs : c.iproc.state = .OBJID) (hrc : c.iproc.rxCount = 3)
    (hobj : UAVObjGetByID reg (c.iproc.objId + b * 256 ^ c.iproc.rxCount) = none)
    (hty : c.iproc.type ≠ UAVTALK_TYPE_OBJ_REQ) :
    UAVTalkProcessInputStream reg c b =
      { c with
        stats := { c.stats with
                   rxBytes := c.stats.rxBytes + 1,
                   rxErrors := c.stats.rxErrors + 1 },
        iproc := { c.iproc with
                   cs := PIOS_CRC_updateByte c.iproc.cs b,
                   rxPacketLength := if c.iproc.rxPacketLength < 0xffff
                     then c.iproc.rxPacketLength + 1 else c.iproc.rxPacketLength,
                   objId := c.iproc.objId + b * 256 ^ c.iproc.rxCount,
                   rxCount := c.iproc.rxCount + 1,
                   obj := none,
                   state := .SYNC } } := by
  simp only [UAVTalkProcessInputStream, hs]
  rw [if_neg (by omega : ¬c.iproc.rxCount + 1 < 4), hobj, if_pos ⟨rfl, hty⟩]

theorem step_OBJID_last_req_unknown (reg : UAVObjRegistry)
    (c : UAVTalkConnectionData) (b : Nat)
    (hs : c.iproc.state = .OBJID) (hrc : c.iproc.rxCount = 3)
    (hobj : UAVObjGetByID reg (c.iproc.objId + b * 256 ^ c.iproc.rxCount) = none)
    (hty : c.iproc.type = UAVTALK_TYPE_OBJ_REQ)
    (hpl : c.iproc.rxPacketLength < 0xffff)
    (hps : c.iproc.rxPacketLength + 1 = c.iproc.packet_size) :
    UAVTalkProcessInputStream reg c b =
      { c with
        stats := { c.stats with rxBytes := c.stats.rxBytes + 1 },
        iproc := { c.iproc with
                   cs := PIOS_CRC_updateByte c.iproc.cs b,
                   rxPacketLength := c.iproc.rxPacketLength + 1,
                   objId := c.iproc.objId + b * 256 ^ c.iproc.rxCount,
                   obj := none,
                   length := 0,
                   instId := 0,
                   state := .CS,
                   rxCount := 0 } } := by
  simp only [UAVTalkProcessInputStream, hs]
  rw [if_neg (by omega : ¬c.iproc.rxCount + 1 < 4), hobj]
  rw [if_neg (by simp [hty] : ¬(none = (none : Option UAVObjDef) ∧
    c.iproc.type ≠ UAVTALK_TYPE_OBJ_REQ))]
  rw [if_pos (Or.inl hty), if_pos hpl]
  rw [if_neg (by decide : ¬UAVTALK_MAX_PAYLOAD_LENGTH ≤ 0)]
  rw [if_neg (by omega : ¬(c.iproc.rxPacketLength + 1 + 0 ≠ c.iproc.packet_size))]
  rw [if_pos rfl]

theorem step_OBJID_last_single (reg : UAVObjRegistry)
    (c : UAVTalkConnectionData) (b : Nat) (d : UAVObjDef) (L : Nat)
    (hs : c.iproc.state = .OBJID) (hrc : c.iproc.rxCount = 3)
    (hobj : UAVObjGetByID reg (c.iproc.objId + b * 256 ^ c.iproc.rxCount) = some d)
    (hd : d.isSingle = true)
    (hL : (if c.iproc.type = UAVTALK_TYPE_OBJ_REQ ∨ c.iproc.type = UAVTALK_TYPE_ACK
        ∨ c.iproc.type = UAVTALK_TYPE_NACK then 0 else d.numBytes) = L)
    (hLmax : L < UAVTALK_MAX_PAYLOAD_LENGTH)
    (hpl : c.iproc.rxPacketLength < 0xffff)
    (hps : c.iproc.rxPacketLength + 1 + L = c.iproc.packet_size) :
    UAVTalkProcessInputStream reg c b =
      { c with
        stats := { c.stats with rxBytes := c.stats.rxBytes + 1 },
        iproc := { c.iproc with
                   cs := PIOS_CRC_updateByte c.iproc.cs b,
                   rxPacketLength := c.iproc.rxPacketLength + 1,
                   objId := c.iproc.objId + b * 256 ^ c.iproc.rxCount,
                   obj := some d,
                   length := L,
                   instId := 0,
                   state := if 0 < L then .DATA else .CS,
                   rxCount := 0 } } := by
  simp only [UAVTalkProcessInputStream, hs]
  rw [if_neg (by omega : ¬c.iproc.rxCount + 1 < 4), hobj]
  rw [if_neg (by simp : ¬(some d = (none : Option UAVObjDef) ∧
    c.iproc.type ≠ UAVTALK_TYPE_OBJ_REQ))]
  rw [show (if c.iproc.type = UAVTALK_TYPE_OBJ_REQ ∨ c.iproc.type = UAVTALK_TYPE_ACK
      ∨ c.iproc.type = UAVTALK_TYPE_NACK then 0 else numBytesOf (some d)) = L from hL]
  rw [if_pos hpl]
  rw [if_neg (by omega : ¬UAVTALK_MAX_PAYLOAD_LENGTH ≤ L)]
  rw [if_neg (by omega : ¬(c.iproc.rxPacketLength + 1 + L ≠ c.iproc.packet_size))]
  rw [if_neg (by simp : ¬(some d = (none : Option UAVObjDef)))]
  rw [if_pos (by simp [isSingleOf, hd] : isSingleOf (some d) = true)]
  by_cases h0 : 0 < L
  · rw [if_pos h0, if_pos h0]
  · rw [if_neg h0, if_neg h0]
theorem step_DATA_cont (reg : UAVObjRegistry) (c : UAVTalkConnectionData) (b : Nat)
    (hs : c.iproc.state = .DATA) (hlt : c.iproc.rxCount + 1 < c.iproc.length) :
    UAVTalkProcessInputStream reg c b =
      { c with
        stats := { c.stats with rxBytes := c.stats.rxBytes + 1 },
        rxBuffer := bufSet c.rxBuffer c.iproc.rxCount b,
        iproc := { c.iproc with
                   cs := PIOS_CRC_updateByte c.iproc.cs b,
                   rxPacketLength := if c.iproc.rxPacketLength < 0xffff
                     then c.iproc.rxPacketLength + 1 else c.iproc.rxPacketLength,
                   rxCount := c.iproc.rxCount + 1 } } := by
  simp only [UAVTalkProcessInputStream, hs]
  rw [if_pos hlt]

theorem step_DATA_done (reg : UAVObjRegistry) (c : UAVTalkConnectionData) (b : Nat)
    (hs : c.iproc.state = .DATA) (hge : ¬c.iproc.rxCount + 1 < c.iproc.length) :
    UAVTalkProcessInputStream reg c b =
      { c with
        stats := { c.stats with rxBytes := c.stats.rxBytes + 1 },
        rxBuffer := bufSet c.rxBuffer c.iproc.rxCount b,
        iproc := { c.iproc with
                   cs := PIOS_CRC_updateByte c.iproc.cs b,
                   rxPacketLength := if c.iproc.rxPacketLength < 0xffff
                     then c.iproc.rxPacketLength + 1 else c.iproc.rxPacketLength,
                   state := .CS,
                   rxCount := 0 } } := by
  simp only [UAVTalkProcessInputStream, hs]
  rw [if_neg hge]

theorem step_CS_bad (reg : UAVObjRegistry) (c : UAVTalkConnectionData) (b : Nat)
    (hs : c.iproc.state = .CS) (hbad : b ≠ c.iproc.cs) :
    UAVTalkProcessInputStream reg c b =
      { c with
        stats := { c.stats with
                   rxBytes := c.stats.rxBytes + 1,
                   rxErrors := c.stats.rxErrors + 1 },
        iproc := { c.iproc with
                   rxPacketLength := if c.iproc.rxPacketLength < 0xffff
                     then c.iproc.rxPacketLength + 1 else c.iproc.rxPacketLength,
                   state := .SYNC } } := by
  simp only [UAVTalkProcessInputStream, hs]
  rw [if_pos hbad]

theorem step_CS_ok (reg : UAVObjRegistry) (c : UAVTalkConnectionData) (b : Nat)
    (hs : c.iproc.state = .CS) (hcs : b = c.iproc.cs)
    (hpl : c.iproc.rxPacketLength < 0xffff)
    (hps : c.iproc.rxPacketLength = c.iproc.packet_size) :
    UAVTalkProcessInputStream reg c b =
      (let c1 : UAVTalkConnectionData :=
        { c with
          stats := { c.stats with rxBytes := c.stats.rxBytes + 1 },
          iproc := { c.iproc with
                     rxPacketLength := c.iproc.rxPacketLength + 1,
                     state := .SYNC },
          dispatches := c.dispatches ++
            [⟨c.iproc.type, c.iproc.objId, c.iproc.instId,
              c.rxBuffer.take c.iproc.length⟩] }
      let c2 := (receiveObject reg c1 c.iproc.type c.iproc.objId c.iproc.instId
        (c.rxBuffer.take c.iproc.length)).2
      { c2 with
        stats := { c2.stats with
                   rxObjectBytes := c2.stats.rxObjectBytes + c.iproc.length,
                   rxObjects := c2.stats.rxObjects + 1 } }) := by
  simp only [UAVTalkProcessInputStream, hs]
  rw [if_neg (by omega : ¬b ≠ c.iproc.cs), if_pos hpl]
  rw [if_neg (by omega : ¬(c.iproc.rxPacketLength + 1 ≠ c.iproc.packet_size + 1))]
set_option maxHeartbeats 2000000 in
theorem headerRun (reg : UAVObjRegistry) (c : UAVTalkConnectionData)
    (ty ps o0 o1 o2 : Nat)
    (hs : c.iproc.state = .SYNC)
    (hver : ty &&& UAVTALK_TYPE_MASK = UAVTALK_TYPE_VER)
    (hlo : UAVTALK_MIN_HEADER_LENGTH ≤ ps) (hhi : ps ≤ 255) :
    UAVTalkProcessStream reg c
      [UAVTALK_SYNC_VAL, ty, ps % 256, ps / 256 % 256, o0, o1, o2] =
      { c with
        stats := { c.stats with rxBytes := c.stats.rxBytes + 7 },
        iproc := { c.iproc with
                   cs := PIOS_CRC_updateCRC 0
                     [UAVTALK_SYNC_VAL, ty, ps % 256, ps / 256 % 256, o0, o1, o2],
                   rxPacketLength := 7,
                   type := ty,
                   packet_size := ps,
                   objId := o0 + o1 * 256 + o2 * 65536,
                   rxCount := 3,
                   state := .OBJID } } := by
  have hps : ps % 256 + ps / 256 % 256 * 256 = ps := by omega
  have h8 : UAVTALK_MIN_HEADER_LENGTH = 8 := rfl
  have h10 : UAVTALK_MAX_HEADER_LENGTH = 10 := rfl
  have h245 : UAVTALK_MAX_PAYLOAD_LENGTH = 245 := rfl
  simp only [UAVTalkProcessStream]
  rw [List.foldl_cons, step_SYNC_hit reg c hs]
  rw [List.foldl_cons, step_TYPE_ok]
  rotate_left
  · rfl
  · exact hver
  rw [List.foldl_cons, step_SIZE0]
  rotate_left
  · rfl
  · rfl
  rw [List.foldl_cons, step_SIZE1_ok]
  rotate_left
  · rfl
  · simp
  · simp
    omega
  rw [List.foldl_cons, step_OBJID_acc]
  rotate_left
  · rfl
  · simp
  rw [List.foldl_cons, step_OBJID_acc]
  rotate_left
  · rfl
  · simp
  rw [List.foldl_cons, step_OBJID_acc]
  rotate_left
  · rfl
  · simp
  rw [List.foldl_nil]
  simp only [UAVTalkConnectionData.mk.injEq, UAVTalkStats.mk.injEq,
    UAVTalkInputProcessor.mk.injEq, PIOS_CRC_updateCRC, List.foldl_cons,
    List.foldl_nil]
  norm_num
  omega
set_option maxHeartbeats 4000000 in
theorem dataRun (reg : UAVObjRegistry) :
    ∀ (rest : List Nat) (c : UAVTalkConnectionData),
      c.iproc.state = .DATA →
      c.iproc.rxCount + rest.length = c.iproc.length →
      rest ≠ [] →
      c.iproc.rxPacketLength + rest.length ≤ 0xffff →
      ((UAVTalkProcessStream reg c rest).iproc.state = .CS
      ∧ (UAVTalkProcessStream reg c rest).iproc.rxCount = 0
      ∧ (UAVTalkProcessStream reg c rest).iproc.cs
          = List.foldl PIOS_CRC_updateByte c.iproc.cs rest
      ∧ (UAVTalkProcessStream reg c rest).iproc.rxPacketLength
          = c.iproc.rxPacketLength + rest.length
      ∧ (UAVTalkProcessStream reg c rest).iproc.packet_size = c.iproc.packet_size
      ∧ (UAVTalkProcessStream reg c rest).iproc.type = c.iproc.type
      ∧ (UAVTalkProcessStream reg c rest).iproc.objId = c.iproc.objId
      ∧ (UAVTalkProcessStream reg c rest).iproc.instId = c.iproc.instId
      ∧ (UAVTalkProcessStream reg c rest).iproc.length = c.iproc.length
      ∧ (UAVTalkProcessStream reg c rest).stats.rxErrors = c.stats.rxErrors
      ∧ (UAVTalkProcessStream reg c rest).dispatches = c.dispatches
      ∧ (UAVTalkProcessStream reg c rest).outputs = c.outputs) := by
  intro rest
  induction rest with
  | nil => intro c _ _ hne _; exact absurd rfl hne
  | cons b rest ih =>
    intro c hs hcount _ hpl
    simp only [List.length_cons] at hcount hpl
    cases rest with
    | nil =>
      have hge : ¬c.iproc.rxCount + 1 < c.iproc.length := by
        simp at hcount; omega
      simp only [UAVTalkProcessStream, List.foldl_cons, List.foldl_nil]
      rw [step_DATA_done reg c b hs hge]
      refine ⟨rfl, rfl, rfl, ?_, rfl, rfl, rfl, rfl, rfl, rfl, rfl, rfl⟩
      simp only [List.length_nil] at hpl
      simp
      omega
    | cons b2 rest2 =>
      simp only [List.length_cons] at hcount hpl
      have hlt : c.iproc.rxCount + 1 < c.iproc.length := by omega
      rw [show UAVTalkProcessStream reg c (b :: b2 :: rest2)
        = UAVTalkProcessStream reg (UAVTalkProcessInputStream reg c b)
          (b2 :: rest2) from rfl]
      rw [step_DATA_cont reg c b hs hlt]
      have hplb : c.iproc.rxPacketLength < 0xffff := by omega
      obtain ⟨g1, g2, g3, g4, g5, g6, g7, g8, g9, g10, g11, g12⟩ :=
        ih { c with
              stats := { c.stats with rxBytes := c.stats.rxBytes + 1 },
              rxBuffer := bufSet c.rxBuffer c.iproc.rxCount b,
              iproc := { c.iproc with
                         cs := PIOS_CRC_updateByte c.iproc.cs b,
                         rxPacketLength := if c.iproc.rxPacketLength < 0xffff
                           then c.iproc.rxPacketLength + 1
                           else c.iproc.rxPacketLength,
                         rxCount := c.iproc.rxCount + 1 } }
          hs (by simp; omega) (by simp) (by simp [hplb]; omega)
      refine ⟨g1, g2, ?_, ?_, g5, g6, g7, g8, g9, g10, g11, g12⟩
      · rw [g3]; rfl
      · rw [g4]
        simp [hplb]
        omega

/-- Processing a concatenated byte stream is processing the parts in
sequence. -/
theorem UAVTalkProcessStream_append (reg : UAVObjRegistry)
    (c : UAVTalkConnectionData) (a b : List Nat) :
    UAVTalkProcessStream reg c (a ++ b)
      = UAVTalkProcessStream reg (UAVTalkProcessStream reg c a) b := by
  simp [UAVTalkProcessStream, List.foldl_append]
set_option maxHeartbeats 4000000 in
/-- C7: corrupting only the final checksum byte of an otherwise valid frame
(any of the five kinds, for a registered single-instance object, with the
kind-appropriate payload length) increments the receive-error counter
exactly once, does not invoke the Dispatcher, and returns the state machine
to `Sync`. -/
theorem C7_corrupted_checksum_counted_once (reg : UAVObjRegistry)
    (c0 : UAVTalkConnectionData) (d : UAVObjDef) (ty L : Nat)
    (payload : List Nat) (x : Nat)
    (hs : c0.iproc.state = .SYNC)
    (hlook : UAVObjGetByID reg d.objId = some d)
    (hid : d.objId < 4294967296)
    (hsingle : d.isSingle = true)
    (hty : ty = UAVTALK_TYPE_OBJ ∨ ty = UAVTALK_TYPE_OBJ_ACK ∨
      ty = UAVTALK_TYPE_OBJ_REQ ∨ ty = UAVTALK_TYPE_ACK ∨ ty = UAVTALK_TYPE_NACK)
    (hL : L = if ty = UAVTALK_TYPE_OBJ_REQ ∨ ty = UAVTALK_TYPE_ACK ∨
      ty = UAVTALK_TYPE_NACK then 0 else d.numBytes)
    (hLmax : L < UAVTALK_MAX_PAYLOAD_LENGTH)
    (hpay : payload.length = L)
    (hx : x ≠ PIOS_CRC_updateCRC 0
      ([UAVTALK_SYNC_VAL, ty] ++ le2 (8 + L) ++ le4 d.objId ++ payload)) :
    (UAVTalkProcessStream reg c0
        (([UAVTALK_SYNC_VAL, ty] ++ le2 (8 + L) ++ le4 d.objId ++ payload)
          ++ [x])).stats.rxErrors = c0.stats.rxErrors + 1
    ∧ (UAVTalkProcessStream reg c0
        (([UAVTALK_SYNC_VAL, ty] ++ le2 (8 + L) ++ le4 d.objId ++ payload)
          ++ [x])).dispatches = c0.dispatches
    ∧ (UAVTalkProcessStream reg c0
        (([UAVTALK_SYNC_VAL, ty] ++ le2 (8 + L) ++ le4 d.objId ++ payload)
          ++ [x])).iproc.state = .SYNC := by
  have h245 : UAVTALK_MAX_PAYLOAD_LENGTH = 245 := rfl
  have h8 : UAVTALK_MIN_HEADER_LENGTH = 8 := rfl
  have hver : ty &&& UAVTALK_TYPE_MASK = UAVTALK_TYPE_VER := by
    rcases hty with h | h | h | h | h <;> subst h <;> decide
  have hsplit : ([UAVTALK_SYNC_VAL, ty] ++ le2 (8 + L) ++ le4 d.objId ++ payload)
      ++ [x]
      = [UAVTALK_SYNC_VAL, ty, (8 + L) % 256, (8 + L) / 256 % 256, d.objId % 256,
          d.objId / 256 % 256, d.objId / 65536 % 256]
        ++ (d.objId / 16777216 % 256 :: (payload ++ [x])) := by
    simp [le2, le4]
  rw [hsplit, UAVTalkProcessStream_append]
  rw [headerRun reg c0 ty (8 + L) (d.objId % 256) (d.objId / 256 % 256)
    (d.objId / 65536 % 256) hs hver (by omega) (by omega)]
  set c7 : UAVTalkConnectionData := { c0 with
    stats := { c0.stats with rxBytes := c0.stats.rxBytes + 7 },
    iproc := { c0.iproc with
               cs := PIOS_CRC_updateCRC 0 [UAVTALK_SYNC_VAL, ty, (8 + L) % 256,
                 (8 + L) / 256 % 256, d.objId % 256, d.objId / 256 % 256,
                 d.objId / 65536 % 256],
               rxPacketLength := 7,
               type := ty,
               packet_size := 8 + L,
               objId := d.objId % 256 + d.objId / 256 % 256 * 256
                 + d.objId / 65536 % 256 * 65536,
               rxCount := 3,
               state := .OBJID } } with hc7
  have hacc : c7.iproc.objId
      + (d.objId / 16777216 % 256) * 256 ^ c7.iproc.rxCount = d.objId := by
    rw [hc7]
    have hp : (256 : Nat) ^ (3 : Nat) = 16777216 := by norm_num
    simp only []
    norm_num
    omega
  have hobj2 : UAVObjGetByID reg (c7.iproc.objId
      + (d.objId / 16777216 % 256) * 256 ^ c7.iproc.rxCount) = some d := by
    rw [hacc]; exact hlook
  rw [show UAVTalkProcessStream reg c7
      (d.objId / 16777216 % 256 :: (payload ++ [x]))
      = UAVTalkProcessStream reg
          (UAVTalkProcessInputStream reg c7 (d.objId / 16777216 % 256))
          (payload ++ [x]) from rfl]
  rw [step_OBJID_last_single reg c7 (d.objId / 16777216 % 256) d L
    (by rw [hc7]) (by rw [hc7]) hobj2 hsingle (by rw [hc7]; exact hL.symm)
    hLmax (by rw [hc7]; norm_num) (by rw [hc7])]
  set c8 : UAVTalkConnectionData := { c7 with
    stats := { c7.stats with rxBytes := c7.stats.rxBytes + 1 },
    iproc := { c7.iproc with
               cs := PIOS_CRC_updateByte c7.iproc.cs (d.objId / 16777216 % 256),
               rxPacketLength := c7.iproc.rxPacketLength + 1,
               objId := c7.iproc.objId
                 + (d.objId / 16777216 % 256) * 256 ^ c7.iproc.rxCount,
               obj := some d,
               length := L,
               instId := 0,
               state := if 0 < L then .DATA else .CS,
               rxCount := 0 } } with hc8
  have hcs8 : c8.iproc.cs = PIOS_CRC_updateCRC 0
      ([UAVTALK_SYNC_VAL, ty] ++ le2 (8 + L) ++ le4 d.objId) := by
    rw [hc8, hc7]
    simp [PIOS_CRC_updateCRC, le2, le4]
  rcases Nat.eq_zero_or_pos L with hL0 | hLpos
  · have hpe : payload = [] := List.eq_nil_of_length_eq_zero (hL0 ▸ hpay)
    subst hpe
    rw [show (([] : List Nat) ++ [x]) = [x] from rfl]
    rw [show UAVTalkProcessStream reg c8 [x]
      = UAVTalkProcessInputStream reg c8 x from rfl]
    have hst : c8.iproc.state = .CS := by
      rw [hc8]; simp [hL0]
    have hbad : x ≠ c8.iproc.cs := by
      rw [hcs8]
      intro h
      apply hx
      rw [h]
      simp
    rw [step_CS_bad reg c8 x hst hbad]
    refine ⟨?_, ?_, rfl⟩
    · rw [hc8, hc7]
    · rw [hc8, hc7]
  · rw [UAVTalkProcessStream_append]
    have hne : payload ≠ [] := by
      intro h
      rw [h] at hpay
      simp at hpay
      omega
    obtain ⟨g1, g2, g3, g4, g5, g6, g7, g8, g9, g10, g11, g12⟩ :=
      dataRun reg payload c8
        (by rw [hc8]; simp [hLpos])
        (by rw [hc8]; simp [hpay])
        hne
        (by rw [hc8]; simp only [hpay]; simp; omega)
    have hcsD : (UAVTalkProcessStream reg c8 payload).iproc.cs
        = PIOS_CRC_updateCRC 0
          ([UAVTALK_SYNC_VAL, ty] ++ le2 (8 + L) ++ le4 d.objId ++ payload) := by
      rw [g3, hcs8]
      simp [PIOS_CRC_updateCRC, List.foldl_append, List.append_assoc]
    have hbad : x ≠ (UAVTalkProcessStream reg c8 payload).iproc.cs := by
      rw [hcsD]; exact hx
    rw [show UAVTalkProcessStream reg (UAVTalkProcessStream reg c8 payload) [x]
      = UAVTalkProcessInputStream reg (UAVTalkProcessStream reg c8 payload) x
      from rfl]
    rw [step_CS_bad reg (UAVTalkProcessStream reg c8 payload) x g1 hbad]
    refine ⟨?_, ?_, rfl⟩
    · show (UAVTalkProcessStream reg c8 payload).stats.rxErrors + 1
        = c0.stats.rxErrors + 1
      rw [g10, hc8, hc7]
    · show (UAVTalkProcessStream reg c8 payload).dispatches = c0.dispatches
      rw [g11, hc8, hc7]

/-- One byte of a stream is one step of the state machine. -/
theorem UAVTalkProcessStream_cons (reg : UAVObjRegistry)
    (c : UAVTalkConnectionData) (b : Nat) (rest : List Nat) :
    UAVTalkProcessStream reg c (b :: rest)
      = UAVTalkProcessStream reg (UAVTalkProcessInputStream reg c b) rest := rfl

/-- An empty stream leaves the connection unchanged. -/
theorem UAVTalkProcessStream_nil (reg : UAVObjRegistry)
    (c : UAVTalkConnectionData) :
    UAVTalkProcessStream reg c [] = c := rfl

set_option maxHeartbeats 4000000 in
/-- C5: an inbound frame whose object id does not resolve in the registry:
a well-formed REQUEST frame (declared length 8, correct checksum) is
answered with a NACK frame carrying exactly the requested 32-bit id and no
payload, with the receive-error counter unchanged and the machine back in
`Sync`; for every other kind, the frame is dropped at the object-id stage —
the receive-error counter is incremented, the machine resets to `Sync`, and
the Dispatcher is not invoked. -/
theorem C5_unknown_object_handling (reg : UAVObjRegistry)
    (c0 : UAVTalkConnectionData) (objId : Nat)
    (hs : c0.iproc.state = .SYNC)
    (hobju : UAVObjGetByID reg objId = none)
    (hid : objId < 4294967296) :
    ((UAVTalkProcessStream reg c0
        ([UAVTALK_SYNC_VAL, UAVTALK_TYPE_OBJ_REQ] ++ le2 8 ++ le4 objId ++
          [PIOS_CRC_updateCRC 0
            ([UAVTALK_SYNC_VAL, UAVTALK_TYPE_OBJ_REQ] ++ le2 8 ++ le4 objId)])).outputs
        = c0.outputs ++ [nackFrame objId]
      ∧ (UAVTalkProcessStream reg c0
          ([UAVTALK_SYNC_VAL, UAVTALK_TYPE_OBJ_REQ] ++ le2 8 ++ le4 objId ++
            [PIOS_CRC_updateCRC 0
              ([UAVTALK_SYNC_VAL, UAVTALK_TYPE_OBJ_REQ] ++ le2 8 ++ le4 objId)])).stats.rxErrors
        = c0.stats.rxErrors
      ∧ (UAVTalkProcessStream reg c0
          ([UAVTALK_SYNC_VAL, UAVTALK_TYPE_OBJ_REQ] ++ le2 8 ++ le4 objId ++
            [PIOS_CRC_updateCRC 0
              ([UAVTALK_SYNC_VAL, UAVTALK_TYPE_OBJ_REQ] ++ le2 8 ++ le4 objId)])).iproc.state
        = .SYNC)
    ∧ (∀ ty ps, (ty = UAVTALK_TYPE_OBJ ∨ ty = UAVTALK_TYPE_OBJ_ACK ∨
        ty = UAVTALK_TYPE_ACK ∨ ty = UAVTALK_TYPE_NACK) →
      UAVTALK_MIN_HEADER_LENGTH ≤ ps → ps ≤ 255 →
      ((UAVTalkProcessStream reg c0
          ([UAVTALK_SYNC_VAL, ty] ++ le2 ps ++ le4 objId)).stats.rxErrors
        = c0.stats.rxErrors + 1
      ∧ (UAVTalkProcessStream reg c0
          ([UAVTALK_SYNC_VAL, ty] ++ le2 ps ++ le4 objId)).dispatches
        = c0.dispatches
      ∧ (UAVTalkProcessStream reg c0
          ([UAVTALK_SYNC_VAL, ty] ++ le2 ps ++ le4 objId)).iproc.state
        = .SYNC)) := by
  have h8 : UAVTALK_MIN_HEADER_LENGTH = 8 := rfl
  constructor
  · -- REQUEST answered with a NACK
    have hver : UAVTALK_TYPE_OBJ_REQ &&& UAVTALK_TYPE_MASK = UAVTALK_TYPE_VER := by
      decide
    have hsplit : [UAVTALK_SYNC_VAL, UAVTALK_TYPE_OBJ_REQ] ++ le2 8 ++ le4 objId
        ++ [PIOS_CRC_updateCRC 0
          ([UAVTALK_SYNC_VAL, UAVTALK_TYPE_OBJ_REQ] ++ le2 8 ++ le4 objId)]
        = [UAVTALK_SYNC_VAL, UAVTALK_TYPE_OBJ_REQ, 8 % 256, 8 / 256 % 256,
            objId % 256, objId / 256 % 256, objId / 65536 % 256]
          ++ (objId / 16777216 % 256 ::
            [PIOS_CRC_updateCRC 0
              ([UAVTALK_SYNC_VAL, UAVTALK_TYPE_OBJ_REQ] ++ le2 8 ++ le4 objId)]) := by
      simp [le2, le4]
    rw [hsplit, UAVTalkProcessStream_append]
    rw [headerRun reg c0 UAVTALK_TYPE_OBJ_REQ 8 (objId % 256) (objId / 256 % 256)
      (objId / 65536 % 256) hs hver (by omega) (by omega)]
    set c7 : UAVTalkConnectionData := { c0 with
      stats := { c0.stats with rxBytes := c0.stats.rxBytes + 7 },
      iproc := { c0.iproc with
                 cs := PIOS_CRC_updateCRC 0 [UAVTALK_SYNC_VAL,
                   UAVTALK_TYPE_OBJ_REQ, 8 % 256, 8 / 256 % 256, objId % 256,
                   objId / 256 % 256, objId / 65536 % 256],
                 rxPacketLength := 7,
                 type := UAVTALK_TYPE_OBJ_REQ,
                 packet_size := 8,
                 objId := objId % 256 + objId / 256 % 256 * 256
                   + objId / 65536 % 256 * 65536,
                 rxCount := 3,
                 state := .OBJID } } with hc7
    have hacc : c7.iproc.objId
        + (objId / 16777216 % 256) * 256 ^ c7.iproc.rxCount = objId := by
      rw [hc7]
      simp only []
      norm_num
      omega
    have hobj2 : UAVObjGetByID reg (c7.iproc.objId
        + (objId / 16777216 % 256) * 256 ^ c7.iproc.rxCount) = none := by
      rw [hacc]; exact hobju
    rw [UAVTalkProcessStream_cons]
    rw [step_OBJID_last_req_unknown reg c7 (objId / 16777216 % 256)
      (by rw [hc7]) (by rw [hc7]) hobj2 (by rw [hc7]) (by rw [hc7]; norm_num)
      (by rw [hc7])]
    set c8 : UAVTalkConnectionData := { c7 with
      stats := { c7.stats with rxBytes := c7.stats.rxBytes + 1 },
      iproc := { c7.iproc with
                 cs := PIOS_CRC_updateByte c7.iproc.cs (objId / 16777216 % 256),
                 rxPacketLength := c7.iproc.rxPacketLength + 1,
                 objId := c7.iproc.objId
                   + (objId / 16777216 % 256) * 256 ^ c7.iproc.rxCount,
                 obj := none,
                 length := 0,
                 instId := 0,
                 state := .CS,
                 rxCount := 0 } } with hc8
    have hcs8 : PIOS_CRC_updateCRC 0
        ([UAVTALK_SYNC_VAL, UAVTALK_TYPE_OBJ_REQ] ++ le2 8 ++ le4 objId)
        = c8.iproc.cs := by
      rw [hc8, hc7]
      simp [PIOS_CRC_updateCRC, le2, le4]
    have hobjId8 : c8.iproc.objId = objId := by
      rw [hc8]
      exact hacc
    rw [UAVTalkProcessStream_cons, UAVTalkProcessStream_nil]
    have htype8 : c8.iproc.type = UAVTALK_TYPE_OBJ_REQ := by rw [hc8, hc7]
    have hinst8 : c8.iproc.instId = 0 := by rw [hc8]
    have hlen8 : c8.iproc.length = 0 := by rw [hc8]
    rw [step_CS_ok reg c8
      (PIOS_CRC_updateCRC 0
        ([UAVTALK_SYNC_VAL, UAVTALK_TYPE_OBJ_REQ] ++ le2 8 ++ le4 objId))
      (by rw [hc8]) hcs8 (by rw [hc8, hc7]; norm_num)
      (by rw [hc8, hc7])]
    have hraw : objId % 256 + objId / 256 % 256 * 256 + objId / 65536 % 256 * 65536
        + objId / 16777216 % 256 * 16777216 = objId := by omega
    simp only [htype8, hobjId8, hinst8, hlen8, List.take_zero]
    simp only [receiveObject]
    norm_num [UAVTALK_TYPE_OBJ_REQ, UAVTALK_TYPE_OBJ, UAVTALK_TYPE_OBJ_ACK,
      UAVTALK_TYPE_ACK, UAVTALK_TYPE_NACK, sendNack, hraw, hobju]
  · -- any other kind referencing an unknown object: dropped with one error
    intro ty ps hty hlo hhi
    have hver : ty &&& UAVTALK_TYPE_MASK = UAVTALK_TYPE_VER := by
      rcases hty with h | h | h | h <;> subst h <;> decide
    have hsplit : [UAVTALK_SYNC_VAL, ty] ++ le2 ps ++ le4 objId
        = [UAVTALK_SYNC_VAL, ty, ps % 256, ps / 256 % 256,
            objId % 256, objId / 256 % 256, objId / 65536 % 256]
          ++ (objId / 16777216 % 256 :: []) := by
      simp [le2, le4]
    rw [hsplit, UAVTalkProcessStream_append]
    rw [headerRun reg c0 ty ps (objId % 256) (objId / 256 % 256)
      (objId / 65536 % 256) hs hver hlo hhi]
    set c7 : UAVTalkConnectionData := { c0 with
      stats := { c0.stats with rxBytes := c0.stats.rxBytes + 7 },
      iproc := { c0.iproc with
                 cs := PIOS_CRC_updateCRC 0 [UAVTALK_SYNC_VAL, ty, ps % 256,
                   ps / 256 % 256, objId % 256, objId / 256 % 256,
                   objId / 65536 % 256],
                 rxPacketLength := 7,
                 type := ty,
                 packet_size := ps,
                 objId := objId % 256 + objId / 256 % 256 * 256
                   + objId / 65536 % 256 * 65536,
                 rxCount := 3,
                 state := .OBJID } } with hc7
    have hacc : c7.iproc.objId
        + (objId / 16777216 % 256) * 256 ^ c7.iproc.rxCount = objId := by
      rw [hc7]
      simp only []
      norm_num
      omega
    have hobj2 : UAVObjGetByID reg (c7.iproc.objId
        + (objId / 16777216 % 256) * 256 ^ c7.iproc.rxCount) = none := by
      rw [hacc]; exact hobju
    have htyne : c7.iproc.type ≠ UAVTALK_TYPE_OBJ_REQ := by
      rw [hc7]
      rcases hty with h | h | h | h <;> subst h <;>
        simp [UAVTALK_TYPE_OBJ_REQ, UAVTALK_TYPE_OBJ, UAVTALK_TYPE_OBJ_ACK,
          UAVTALK_TYPE_ACK, UAVTALK_TYPE_NACK]
    rw [UAVTalkProcessStream_cons, UAVTalkProcessStream_nil]
    rw [step_OBJID_last_unknown_err reg c7 (objId / 16777216 % 256)
      (by rw [hc7]) (by rw [hc7]) hobj2 htyne]
    refine ⟨?_, ?_, rfl⟩
    · rw [hc7]
    · rw [hc7]

/-- Witness for C5: a REQUEST for the unregistered id 0xDEADBEEF is answered
with the NACK for that exact id (no error counted), while an ACK frame for
the same unknown id is dropped with one receive error. -/
theorem C5_unknown_object_handling_witness :
    ((UAVTalkProcessStream regEmpty (freshConnection 256)
        ([UAVTALK_SYNC_VAL, UAVTALK_TYPE_OBJ_REQ] ++ le2 8 ++ le4 0xDEADBEEF ++
          [PIOS_CRC_updateCRC 0
            ([UAVTALK_SYNC_VAL, UAVTALK_TYPE_OBJ_REQ] ++ le2 8 ++ le4 0xDEADBEEF)])).outputs
        = (freshConnection 256).outputs ++ [nackFrame 0xDEADBEEF]
      ∧ (UAVTalkProcessStream regEmpty (freshConnection 256)
          ([UAVTALK_SYNC_VAL, UAVTALK_TYPE_OBJ_REQ] ++ le2 8 ++ le4 0xDEADBEEF ++
            [PIOS_CRC_updateCRC 0
              ([UAVTALK_SYNC_VAL, UAVTALK_TYPE_OBJ_REQ] ++ le2 8 ++ le4 0xDEADBEEF)])).stats.rxErrors
        = (freshConnection 256).stats.rxErrors
      ∧ (UAVTalkProcessStream regEmpty (freshConnection 256)
          ([UAVTALK_SYNC_VAL, UAVTALK_TYPE_OBJ_REQ] ++ le2 8 ++ le4 0xDEADBEEF ++
            [PIOS_CRC_updateCRC 0
              ([UAVTALK_SYNC_VAL, UAVTALK_TYPE_OBJ_REQ] ++ le2 8 ++ le4 0xDEADBEEF)])).iproc.state
        = .SYNC)
    ∧ ((UAVTalkProcessStream regEmpty (freshConnection 256)
        ([UAVTALK_SYNC_VAL, UAVTALK_TYPE_ACK] ++ le2 8 ++ le4 0xDEADBEEF)).stats.rxErrors
        = (freshConnection 256).stats.rxErrors + 1
      ∧ (UAVTalkProcessStream regEmpty (freshConnection 256)
          ([UAVTALK_SYNC_VAL, UAVTALK_TYPE_ACK] ++ le2 8 ++ le4 0xDEADBEEF)).dispatches
        = (freshConnection 256).dispatches
      ∧ (UAVTalkProcessStream regEmpty (freshConnection 256)
          ([UAVTALK_SYNC_VAL, UAVTALK_TYPE_ACK] ++ le2 8 ++ le4 0xDEADBEEF)).iproc.state
        = .SYNC) :=
  ⟨(C5_unknown_object_handling regEmpty (freshConnection 256) 0xDEADBEEF
      rfl (by decide) (by decide)).1,
    (C5_unknown_object_handling regEmpty (freshConnection 256) 0xDEADBEEF
      rfl (by decide) (by decide)).2 UAVTALK_TYPE_ACK 8
      (Or.inr (Or.inr (Or.inl rfl))) (by decide) (by decide)⟩

/-- Witness for C7: the DATA frame for the single-instance 4-byte object
with its checksum byte replaced by 0 is dropped with exactly one receive
error and no Dispatcher invocation. -/
theorem C7_corrupted_checksum_counted_once_witness :
    (UAVTalkProcessStream regSingle4 (freshConnection 256)
        (([UAVTALK_SYNC_VAL, UAVTALK_TYPE_OBJ] ++ le2 (8 + 4) ++ le4 0x12345678
          ++ [1, 2, 3, 4]) ++ [0])).stats.rxErrors
      = (freshConnection 256).stats.rxErrors + 1
    ∧ (UAVTalkProcessStream regSingle4 (freshConnection 256)
        (([UAVTALK_SYNC_VAL, UAVTALK_TYPE_OBJ] ++ le2 (8 + 4) ++ le4 0x12345678
          ++ [1, 2, 3, 4]) ++ [0])).dispatches
      = (freshConnection 256).dispatches
    ∧ (UAVTalkProcessStream regSingle4 (freshConnection 256)
        (([UAVTALK_SYNC_VAL, UAVTALK_TYPE_OBJ] ++ le2 (8 + 4) ++ le4 0x12345678
          ++ [1, 2, 3, 4]) ++ [0])).iproc.state = .SYNC :=
  C7_corrupted_checksum_counted_once regSingle4 (freshConnection 256)
    ⟨0x12345678, true, 4, 1⟩ UAVTALK_TYPE_OBJ 4 [1, 2, 3, 4] 0
    rfl (by decide) (by decide) rfl (Or.inl rfl) (by decide) (by decide) rfl
    (by decide)
